import Mathlib

/-!
Verification development for the butler-cli bootstrap orchestrator and
manifest deployer (package `orchestrator` and
`internal/adm/bootstrap/manifests`).

The Go code manipulates dynamic `map[string]interface{}` values
(Kubernetes "unstructured" objects and YAML documents).  We embed those
as the inductive `JVal` below.  Machine integers (`int32`, `int64`) are
embedded as `Int`; none of the embedded code performs arithmetic that
could overflow 32 bits (the only arithmetic is loop counting and
comparisons), so no explicit modular reduction is needed.

Side effects (Kubernetes API calls, printing, process execution) are
embedded as explicit traces of events, and the API server as an explicit
store that is threaded through the functions.  Polling loops are
embedded with an explicit fuel argument; running out of fuel returns
`none`, meaning "the loop is still running".
-/

/-- Embedding of Go `interface{}` values as produced by
`sigs.k8s.io/yaml.Unmarshal` into `map[string]interface{}` and as stored
in `unstructured.Unstructured.Object`: strings, integers, booleans,
lists and string-keyed maps.  Maps are embedded as association lists;
all reads go through `lookup`, which returns the first binding. -/
inductive JVal where
  | str (s : String)
  | int (n : Int)
  | bool (b : Bool)
  | list (xs : List JVal)
  | obj (fields : List (String × JVal))

/-- First binding for a key in an association list (Go map read). -/
def lookupField : List (String × JVal) → String → Option JVal
  | [], _ => none
  | (k', v) :: rest, k => if k' = k then some v else lookupField rest k

/-- Go `m[k]` on a `map[string]interface{}` value; `none` when the value
is not a map or the key is absent (Go: `nil`). -/
def JVal.lookup : JVal → String → Option JVal
  | .obj fields, k => lookupField fields k
  | _, _ => none

/-- Go map assignment `m[k] = v`: replace the first binding for `k`, or
append a new binding when the key is absent. -/
def setField : List (String × JVal) → String → JVal → List (String × JVal)
  | [], k, v => [(k, v)]
  | (k', v') :: rest, k, v =>
    if k' = k then (k, v) :: rest else (k', v') :: setField rest k v

/-- Go type assertion `m[k].(string)` in its two-result form
`s, _ := m[k].(string)`: the string when present, `""` otherwise. -/
def getStr (v : JVal) (k : String) : String :=
  match v.lookup k with
  | some (.str s) => s
  | _ => ""

/-- Go type assertion `m[k].([]interface{})` in its two-result form:
the list when present, `none` (Go: `nil`) otherwise. -/
def getList (v : JVal) (k : String) : Option (List JVal) :=
  match v.lookup k with
  | some (.list xs) => some xs
  | _ => none

/-! ## Configuration (orchestrator `Config`, from the config file of the
`orchestrator` package appended to `deployer.go` in this snapshot) -/

/-- Go `NodePoolConfig`. -/
structure DiskConfig where
  SizeGB : Int
  StorageClass : String
deriving DecidableEq

/-- Go `NodePoolConfig`. -/
structure NodePoolConfig where
  Replicas : Int
  CPU : Int
  MemoryMB : Int
  DiskGB : Int
  ExtraDisks : List DiskConfig
deriving DecidableEq

/-- Go `ClusterConfig`. -/
structure ClusterConfig where
  Name : String
  Topology : String
  ControlPlane : NodePoolConfig
  Workers : NodePoolConfig
deriving DecidableEq

/-- Go `NetworkConfig`. -/
structure NetworkConfig where
  PodCIDR : String
  ServiceCIDR : String
  VIP : String
deriving DecidableEq

/-- Go `TalosConfig`. -/
structure TalosConfig where
  Version : String
  Schematic : String
deriving DecidableEq

/-- Go `CNIConfig` (`Type_` embeds the Go field `Type`, a reserved
word in Lean). -/
structure CNIConfig where
  Type_ : String
deriving DecidableEq

/-- Go `StorageConfig` (`Type_` embeds the Go field `Type`). -/
structure StorageConfig where
  Type_ : String
deriving DecidableEq

/-- Go `LoadBalancerConfig` (`Type_` embeds the Go field `Type`). -/
structure LoadBalancerConfig where
  Type_ : String
  AddressPool : String
deriving DecidableEq

/-- Go `GitOpsConfig` (`Type_` embeds the Go field `Type`). -/
structure GitOpsConfig where
  Type_ : String
deriving DecidableEq

/-- Go `CAPIConfig`. -/
structure CAPIConfig where
  Enabled : Bool
  Version : String
deriving DecidableEq

/-- Go `ButlerControllerConfig`. -/
structure ButlerControllerConfig where
  Enabled : Bool
  Version : String
  Image : String
deriving DecidableEq

/-- Go `ConsoleIngressConfig`. -/
structure ConsoleIngressConfig where
  Enabled : Bool
  Host : String
  ClassName : String
  TLS : Bool
  TLSSecretName : String
deriving DecidableEq

/-- Go `ConsoleAuthConfig`. -/
structure ConsoleAuthConfig where
  AdminPassword : String
  JWTSecret : String
deriving DecidableEq

/-- Go `ConsoleConfig`. -/
structure ConsoleConfig where
  Enabled : Bool
  Version : String
  Ingress : ConsoleIngressConfig
  Auth : ConsoleAuthConfig
deriving DecidableEq

/-- Go `AddonsConfig`. -/
structure AddonsConfig where
  CNI : CNIConfig
  Storage : StorageConfig
  LoadBalancer : LoadBalancerConfig
  GitOps : GitOpsConfig
  CAPI : CAPIConfig
  ButlerController : ButlerControllerConfig
  Console : ConsoleConfig
deriving DecidableEq

/-- Go `HarvesterProviderConfig`. -/
structure HarvesterProviderConfig where
  KubeconfigPath : String
  Namespace : String
  NetworkName : String
  ImageName : String
deriving DecidableEq

/-- Go `NutanixProviderConfig`. -/
structure NutanixProviderConfig where
  Endpoint : String
  Port : Int
  Insecure : Bool
  Username : String
  Password : String
  ClusterUUID : String
  SubnetUUID : String
  ImageUUID : String
  StorageContainerUUID : String
  HostAliases : List String
deriving DecidableEq

/-- Go `ProxmoxProviderConfig`. -/
structure ProxmoxProviderConfig where
  Endpoint : String
  Insecure : Bool
  Username : String
  Password : String
  Nodes : List String
  Storage : String
  TemplateID : Int
  VMIDStart : Int
  VMIDEnd : Int
  HostAliases : List String
deriving DecidableEq

/-- Go `ProviderConfig` (the struct of three optional variants). -/
structure ProviderConfigT where
  Harvester : Option HarvesterProviderConfig
  Nutanix : Option NutanixProviderConfig
  Proxmox : Option ProxmoxProviderConfig
deriving DecidableEq

/-- Go `Config`. -/
structure Config where
  Provider : String
  Cluster : ClusterConfig
  Network : NetworkConfig
  Talos : TalosConfig
  Addons : AddonsConfig
  ProviderConfig : ProviderConfigT
deriving DecidableEq

/-- Go `(c *Config) IsSingleNode`. -/
def Config.IsSingleNode (c : Config) : Bool :=
  c.Cluster.Topology = "single-node"

/-- Model of Go `filepath.Join(home, rest)` for the paths produced by
`expandPath` (where `rest` is either empty or starts with a separator or
a path element; cleaning of duplicate separators is folded into the
concatenation). -/
def filepathJoinModel (home rest : String) : String :=
  if rest = "" then home
  else if rest.front = '/' then home ++ rest
  else home ++ "/" ++ rest

/-- Go `expandPath` (expand `~` to the home directory).  The home
directory lookup `os.UserHomeDir()` is passed in as `home`; `none`
embeds its error case. -/
def expandPath (home : Option String) (path : String) : String :=
  if path.length > 0 ∧ path.front = '~' then
    match home with
    | none => path
    | some h => filepathJoinModel h (path.drop 1)
  else path

/-- Go `LoadConfig` line 611-613: default the pod CIDR. -/
def defaultPodCIDR (cfg : Config) : Config :=
  if cfg.Network.PodCIDR = "" then
    { cfg with Network := { cfg.Network with PodCIDR := "10.244.0.0/16" } } else cfg

/-- Go `LoadConfig` line 614-616: default the service CIDR. -/
def defaultServiceCIDR (cfg : Config) : Config :=
  if cfg.Network.ServiceCIDR = "" then
    { cfg with Network := { cfg.Network with ServiceCIDR := "10.96.0.0/12" } } else cfg

/-- Go `LoadConfig` line 617-619: default the Talos version. -/
def defaultTalosVersion (cfg : Config) : Config :=
  if cfg.Talos.Version = "" then
    { cfg with Talos := { cfg.Talos with Version := "v1.9.0" } } else cfg

/-- Go `LoadConfig` line 620-622: default the CNI type. -/
def defaultCNIType (cfg : Config) : Config :=
  if cfg.Addons.CNI.Type_ = "" then
    { cfg with Addons := { cfg.Addons with CNI := { cfg.Addons.CNI with Type_ := "cilium" } } } else cfg

/-- Go `LoadConfig` line 623-625: default the storage type. -/
def defaultStorageType (cfg : Config) : Config :=
  if cfg.Addons.Storage.Type_ = "" then
    { cfg with Addons := { cfg.Addons with Storage := { cfg.Addons.Storage with Type_ := "longhorn" } } } else cfg

/-- Go `LoadConfig` line 626-628: default the load balancer type. -/
def defaultLoadBalancerType (cfg : Config) : Config :=
  if cfg.Addons.LoadBalancer.Type_ = "" then
    { cfg with Addons := { cfg.Addons with LoadBalancer := { cfg.Addons.LoadBalancer with Type_ := "metallb" } } } else cfg

/-- Go `LoadConfig` line 629-631: default the GitOps type. -/
def defaultGitOpsType (cfg : Config) : Config :=
  if cfg.Addons.GitOps.Type_ = "" then
    { cfg with Addons := { cfg.Addons with GitOps := { cfg.Addons.GitOps with Type_ := "flux" } } } else cfg

/-- Go `LoadConfig` lines 610-631: the network / talos / addon defaults,
applied in source order. -/
def applyNetworkAddonDefaults (cfg : Config) : Config :=
  defaultGitOpsType (defaultLoadBalancerType (defaultStorageType (defaultCNIType
    (defaultTalosVersion (defaultServiceCIDR (defaultPodCIDR cfg))))))

/-- Go `LoadConfig` lines 633-636: default the topology to `"ha"`. -/
def applyTopologyDefault (cfg : Config) : Config :=
  if cfg.Cluster.Topology = "" then
    { cfg with Cluster := { cfg.Cluster with Topology := "ha" } } else cfg

/-- Go `LoadConfig` lines 643-655: single-node topology enforcement —
force `ControlPlane.Replicas` to 1 (the warning print for an input
greater than 1 is a side effect that does not change the result and is
not modelled); workers are left unmodified. -/
def enforceSingleNode (cfg : Config) : Config :=
  if cfg.Cluster.Topology = "single-node" ∧ cfg.Cluster.ControlPlane.Replicas ≠ 1 then
    { cfg with Cluster := { cfg.Cluster with
        ControlPlane := { cfg.Cluster.ControlPlane with Replicas := 1 } } }
  else cfg

/-- Go `LoadConfig` lines 658-661: default the console version. -/
def defaultConsoleVersion (cfg : Config) : Config :=
  if cfg.Addons.Console.Enabled ∧ cfg.Addons.Console.Version = "" then
    { cfg with Addons := { cfg.Addons with
        Console := { cfg.Addons.Console with Version := "latest" } } } else cfg

/-- Go `LoadConfig` lines 662-665: default the console ingress host. -/
def defaultConsoleHost (cfg : Config) : Config :=
  if cfg.Addons.Console.Enabled ∧ cfg.Addons.Console.Ingress.Enabled
      ∧ cfg.Addons.Console.Ingress.Host = "" then
    { cfg with Addons := { cfg.Addons with
        Console := { cfg.Addons.Console with
          Ingress := { cfg.Addons.Console.Ingress with
            Host := "butler." ++ cfg.Cluster.Name ++ ".local" } } } } else cfg

/-- Go `LoadConfig` lines 657-666: console defaults, in source order. -/
def applyConsoleDefaults (cfg : Config) : Config :=
  defaultConsoleHost (defaultConsoleVersion cfg)

/-- Go `LoadConfig` lines 668-673: the Nutanix port default. -/
def defaultNutanixPort (cfg : Config) : Config :=
  match cfg.ProviderConfig.Nutanix with
  | some n =>
    if cfg.Provider = "nutanix" ∧ n.Port = 0 then
      { cfg with ProviderConfig := { cfg.ProviderConfig with
          Nutanix := some { n with Port := 9440 } } } else cfg
  | none => cfg

/-- Go `LoadConfig` lines 675-678: home-directory expansion of the
Harvester kubeconfig path. -/
def expandHarvesterPath (home : Option String) (cfg : Config) : Config :=
  match cfg.ProviderConfig.Harvester with
  | some hv =>
    if hv.KubeconfigPath ≠ "" then
      { cfg with ProviderConfig := { cfg.ProviderConfig with
          Harvester := some { hv with
            KubeconfigPath := expandPath home hv.KubeconfigPath } } } else cfg
  | none => cfg

/-- Go `LoadConfig` lines 668-678: provider-specific defaults and path
expansion, in source order. -/
def applyProviderDefaults (home : Option String) (cfg : Config) : Config :=
  expandHarvesterPath home (defaultNutanixPort cfg)

/-- Go `LoadConfig`, lines 604-681: the pure transformation applied to
the configuration after `viper.Unmarshal` has produced `cfg0` (the
unmarshalling itself is outside the embedding; `home` stands for
`os.UserHomeDir()`).  The helper functions above each embed one
contiguous block of the source, applied here in source order, with the
topology validation (lines 638-641) in between. -/
def LoadConfig (home : Option String) (cfg0 : Config) : Except String Config :=
  let cfg := applyTopologyDefault (applyNetworkAddonDefaults cfg0)
  -- Validate topology
  if cfg.Cluster.Topology ≠ "single-node" ∧ cfg.Cluster.Topology ≠ "ha" then
    .error ("invalid topology " ++ cfg.Cluster.Topology ++ ", must be single-node or ha")
  else
    .ok (applyProviderDefaults home (applyConsoleDefaults (enforceSingleNode cfg)))

/-! ## Intent builders (orchestrator, part_004 lines 784-943 and 1171-1195) -/

/-- Go constant `butlerNamespace`. -/
def butlerNamespace : String := "butler-system"

/-- Go constant `butlerAPIGroup`. -/
def butlerAPIGroup : String := "butler.butlerlabs.dev"

/-- Go constant `butlerAPIVersion`. -/
def butlerAPIVersion : String := "v1alpha1"

/-- Go `buildProviderConfigUnstructured` (part_004 lines 784-833).  Go
builds `spec` as a map and conditionally inserts the provider-specific
keys; insertion into the association list embeds the map writes.  For
`provider = "harvester"` with a nil `ProviderConfig.Harvester`, line 799
dereferences the nil pointer (`cfg.ProviderConfig.Harvester.Namespace`)
and the program panics, and likewise line 809
(`cfg.ProviderConfig.Nutanix.Endpoint`) for `provider = "nutanix"` with
a nil `ProviderConfig.Nutanix`; `none` embeds that panic — no object is
built and nothing after the call runs. -/
def buildProviderConfigUnstructured (cfg : Config) : Option JVal :=
  let specBase : List (String × JVal) := [("provider", .str cfg.Provider)]
  let mkPC : List (String × JVal) → JVal := fun spec =>
    .obj [
      ("apiVersion", .str (butlerAPIGroup ++ "/" ++ butlerAPIVersion)),
      ("kind", .str "ProviderConfig"),
      ("metadata", .obj [
        ("name", .str (cfg.Cluster.Name ++ "-provider")),
        ("namespace", .str butlerNamespace)]),
      ("spec", .obj spec)]
  if cfg.Provider = "harvester" then
    match cfg.ProviderConfig.Harvester with
    | some hv =>
      some (mkPC (specBase ++
        [("credentialsRef", .obj [
            ("name", .str (cfg.Cluster.Name ++ "-harvester-credentials")),
            ("namespace", .str butlerNamespace),
            ("key", .str "kubeconfig")]),
         ("harvester", .obj [
            ("namespace", .str hv.Namespace),
            ("networkName", .str hv.NetworkName),
            ("imageName", .str hv.ImageName)])]))
    | none => none
  else if cfg.Provider = "nutanix" then
    match cfg.ProviderConfig.Nutanix with
    | some n =>
      some (mkPC (specBase ++
        [("credentialsRef", .obj [
            ("name", .str (cfg.Cluster.Name ++ "-nutanix-credentials")),
            ("namespace", .str butlerNamespace)]),
         ("nutanix", .obj [
            ("endpoint", .str n.Endpoint),
            ("port", .int n.Port),
            ("insecure", .bool n.Insecure),
            ("clusterUUID", .str n.ClusterUUID),
            ("subnetUUID", .str n.SubnetUUID),
            ("imageUUID", .str n.ImageUUID)])]))
    | none => none
  else some (mkPC specBase)

/-- Go `buildConsoleConfig` (part_004 lines 1171-1195). -/
def buildConsoleConfig (cfg : ConsoleConfig) : JVal :=
  if ¬cfg.Enabled then
    .obj [("enabled", .bool false)]
  else
    let result : List (String × JVal) :=
      [("enabled", .bool true), ("version", .str cfg.Version)]
    let result :=
      if cfg.Ingress.Enabled then
        result ++ [("ingress", .obj [
          ("enabled", .bool true),
          ("host", .str cfg.Ingress.Host),
          ("className", .str cfg.Ingress.ClassName),
          ("tls", .bool cfg.Ingress.TLS),
          ("tlsSecretName", .str cfg.Ingress.TLSSecretName)])]
      else result
    .obj result

/-- Go `buildClusterBootstrapUnstructured` (part_004 lines 849-943): the
`workers` key is inserted into the cluster spec map only for
non-single-node topologies with positive worker replicas. -/
def buildClusterBootstrapUnstructured (cfg : Config) : JVal :=
  -- Build cluster spec based on topology
  let clusterSpecBase : List (String × JVal) := [
    ("name", .str cfg.Cluster.Name),
    ("topology", .str cfg.Cluster.Topology),
    ("controlPlane", .obj [
      ("replicas", .int cfg.Cluster.ControlPlane.Replicas),
      ("cpu", .int cfg.Cluster.ControlPlane.CPU),
      ("memoryMB", .int cfg.Cluster.ControlPlane.MemoryMB),
      ("diskGB", .int cfg.Cluster.ControlPlane.DiskGB)])]
  -- Only include workers for non-single-node topologies
  let clusterSpec : List (String × JVal) :=
    if ¬cfg.IsSingleNode ∧ cfg.Cluster.Workers.Replicas > 0 then
      let extraDisks : List JVal := cfg.Cluster.Workers.ExtraDisks.map (fun disk =>
        .obj ([("sizeGB", .int disk.SizeGB)] ++
          (if disk.StorageClass ≠ "" then [("storageClass", .str disk.StorageClass)] else [])))
      let workersSpec : List (String × JVal) := [
        ("replicas", .int cfg.Cluster.Workers.Replicas),
        ("cpu", .int cfg.Cluster.Workers.CPU),
        ("memoryMB", .int cfg.Cluster.Workers.MemoryMB),
        ("diskGB", .int cfg.Cluster.Workers.DiskGB)]
      let workersSpec :=
        if extraDisks.length > 0 then workersSpec ++ [("extraDisks", .list extraDisks)]
        else workersSpec
      clusterSpecBase ++ [("workers", .obj workersSpec)]
    else clusterSpecBase
  .obj [
    ("apiVersion", .str (butlerAPIGroup ++ "/" ++ butlerAPIVersion)),
    ("kind", .str "ClusterBootstrap"),
    ("metadata", .obj [
      ("name", .str cfg.Cluster.Name),
      ("namespace", .str butlerNamespace)]),
    ("spec", .obj [
      ("provider", .str cfg.Provider),
      ("providerRef", .obj [
        ("name", .str (cfg.Cluster.Name ++ "-provider")),
        ("namespace", .str butlerNamespace)]),
      ("cluster", .obj clusterSpec),
      ("network", .obj [
        ("podCIDR", .str cfg.Network.PodCIDR),
        ("serviceCIDR", .str cfg.Network.ServiceCIDR),
        ("vip", .str cfg.Network.VIP)]),
      ("talos", .obj [
        ("version", .str cfg.Talos.Version),
        ("schematic", .str cfg.Talos.Schematic)]),
      ("addons", .obj [
        ("cni", .obj [("type", .str cfg.Addons.CNI.Type_)]),
        ("storage", .obj [("type", .str cfg.Addons.Storage.Type_)]),
        ("loadBalancer", .obj [
          ("type", .str cfg.Addons.LoadBalancer.Type_),
          ("addressPool", .str cfg.Addons.LoadBalancer.AddressPool)]),
        ("gitOps", .obj [("type", .str cfg.Addons.GitOps.Type_)]),
        ("capi", .obj [
          ("enabled", .bool cfg.Addons.CAPI.Enabled),
          ("version", .str cfg.Addons.CAPI.Version)]),
        ("butlerController", .obj [
          ("enabled", .bool cfg.Addons.ButlerController.Enabled),
          ("version", .str cfg.Addons.ButlerController.Version),
          ("image", .str cfg.Addons.ButlerController.Image)]),
        ("console", buildConsoleConfig cfg.Addons.Console)])])]

/-- The `spec.cluster` map of a built intent object, paired with its
`workers` entry: `some none` means the cluster spec is present and the
`workers` key is absent from it. -/
def clusterWorkersField (cb : JVal) : Option (Option JVal) :=
  (cb.lookup "spec").bind (fun s => ((s.lookup "cluster").map (fun cs => cs.lookup "workers")))

/-! ## API-server store model and the manifest deployer's apply
(deployer.go lines 143-209) -/

/-- Fully-qualified identity of an object on the API server:
group/version/resource, namespace (empty for cluster-scoped) and name. -/
structure ResKey where
  group : String
  version : String
  resource : String
  ns : String
  name : String
deriving DecidableEq

/-- An object as stored by the API server, with its revision token. -/
structure StoredObj where
  obj : JVal
  resourceVersion : Nat

/-- The API server's object store. -/
abbrev Store := List (ResKey × StoredObj)

/-- API errors relevant to the embedded code paths. -/
inductive ApiErr where
  | alreadyExists
  | notFound
  | conflict
deriving DecidableEq

/-- Server-side read: first entry with the key. -/
def findRes : Store → ResKey → Option StoredObj
  | [], _ => none
  | (k', o) :: rest, k => if k' = k then some o else findRes rest k

/-- Server-side create: rejected with AlreadyExists when an object with
the same identity is present; otherwise stored at revision 1. -/
def createRes (st : Store) (k : ResKey) (obj : JVal) : Except ApiErr Store :=
  match findRes st k with
  | some _ => .error .alreadyExists
  | none => .ok ((k, ⟨obj, 1⟩) :: st)

/-- Replace the stored object for a key, in place. -/
def replaceRes : Store → ResKey → StoredObj → Store
  | [], _, _ => []
  | (k', o) :: rest, k, no =>
    if k' = k then (k, no) :: rest else (k', o) :: replaceRes rest k no

/-- Server-side update carrying a revision token: NotFound when absent,
Conflict when the token is stale, otherwise replace and bump. -/
def updateRes (st : Store) (k : ResKey) (obj : JVal) (rv : Nat) : Except ApiErr Store :=
  match findRes st k with
  | none => .error .notFound
  | some ex =>
    if rv = ex.resourceVersion then .ok (replaceRes st k ⟨obj, ex.resourceVersion + 1⟩)
    else .error .conflict

/-- Go `schema.ParseGroupVersion` as used by
`unstructured.GroupVersionKind()`: no slash means a core-group version,
one slash splits group/version, anything else is the error case
(yielding the empty group/version). -/
def parseGroupVersion (apiVersion : String) : String × String :=
  match apiVersion.splitOn "/" with
  | [v] => ("", v)
  | [g, v] => (g, v)
  | _ => ("", "")

/-- Go `gvkToGVR` (deployer.go lines 180-209): the explicit
kind-to-resource table with the lowercase-plus-s fallback. -/
def gvkToGVR (group version kind : String) : String × String × String :=
  let resource :=
    if kind = "Namespace" then "namespaces"
    else if kind = "ServiceAccount" then "serviceaccounts"
    else if kind = "ClusterRole" then "clusterroles"
    else if kind = "ClusterRoleBinding" then "clusterrolebindings"
    else if kind = "Role" then "roles"
    else if kind = "RoleBinding" then "rolebindings"
    else if kind = "Deployment" then "deployments"
    else if kind = "Service" then "services"
    else if kind = "ConfigMap" then "configmaps"
    else if kind = "Secret" then "secrets"
    else if kind = "CustomResourceDefinition" then "customresourcedefinitions"
    else kind.toLower ++ "s"
  (group, version, resource)

/-- Go `obj.GetName()` on an unstructured object (empty when absent). -/
def getName (obj : JVal) : String :=
  match obj.lookup "metadata" with
  | some md => getStr md "name"
  | none => ""

/-- Go `obj.GetNamespace()` on an unstructured object. -/
def getNamespace (obj : JVal) : String :=
  match obj.lookup "metadata" with
  | some md => getStr md "namespace"
  | none => ""

/-- The store identity targeted by `applyResource` for an object:
`gvkToGVR(obj.GroupVersionKind())` plus the object's namespace (the
namespaced client when non-empty, the cluster client otherwise — either
way the same identity components) and name. -/
def resKeyOf (obj : JVal) : ResKey :=
  let gv := parseGroupVersion (getStr obj "apiVersion")
  let gvr := gvkToGVR gv.1 gv.2 (getStr obj "kind")
  ⟨gvr.1, gvr.2.1, gvr.2.2, getNamespace obj, getName obj⟩

/-- The API calls `applyResource` and the create-only submitters issue,
in order. -/
inductive ApplyAction where
  | createA
  | getA
  | updateA
deriving DecidableEq

/-- Go `applyResource` (deployer.go lines 143-178): try create; on
AlreadyExists fetch the existing object, carry its resourceVersion onto
the new object (`obj.SetResourceVersion`), and update in place; any
other path is an error.  Returns the API calls made and the outcome. -/
def applyResource (st : Store) (obj : JVal) : List ApplyAction × Except ApiErr Store :=
  let k := resKeyOf obj
  -- Try to create first
  match createRes st k obj with
  | .ok st1 => ([.createA], .ok st1)
  | .error e =>
    -- If already exists, update
    if e = .alreadyExists then
      -- Get existing to preserve resourceVersion
      match findRes st k with
      | none => ([.createA, .getA], .error .notFound)
      | some existing =>
        match updateRes st k obj existing.resourceVersion with
        | .ok st1 => ([.createA, .getA, .updateA], .ok st1)
        | .error ue => ([.createA, .getA, .updateA], .error ue)
    else ([.createA], .error e)

/-- Number of stored objects with a given identity. -/
def countKey (st : Store) (k : ResKey) : Nat :=
  st.countP (fun p => p.1 = k)

/-- The store invariant the API server maintains: one object per
identity. -/
def StoreWF (st : Store) : Prop :=
  (st.map Prod.fst).Nodup

/-! ## Create-once intent submission (part_004 lines 770-782 and
835-847) -/

/-- GVR constant `providerConfigGVR`. -/
def providerConfigGVR : String × String × String :=
  (butlerAPIGroup, butlerAPIVersion, "providerconfigs")

/-- GVR constant `clusterBootstrapGVR`. -/
def clusterBootstrapGVR : String × String × String :=
  (butlerAPIGroup, butlerAPIVersion, "clusterbootstraps")

/-- The store identity targeted for a built ProviderConfig object. -/
def pcKeyFor (pc : JVal) : ResKey :=
  ⟨providerConfigGVR.1, providerConfigGVR.2.1, providerConfigGVR.2.2,
   butlerNamespace, getName pc⟩

/-- Go `createProviderConfig` (part_004 lines 770-782): build the intent
object and issue a single Create in `butlerNamespace`; any creation
error is returned wrapped, with no fallback to update or reuse.  When
the builder nil-pointer panics (nil provider sub-config), the panic
propagates before any API call: `none`, no action trace, no result. -/
def createProviderConfig (st : Store) (cfg : Config) :
    Option (List ApplyAction × Except String Store) :=
  match buildProviderConfigUnstructured cfg with
  | none => none
  | some pc =>
    match createRes st (pcKeyFor pc) pc with
    | .ok st1 => some ([.createA], .ok st1)
    | .error _ => some ([.createA], .error "creating ProviderConfig: already exists")

/-- Go `createClusterBootstrap` (part_004 lines 835-847): same
create-once shape for the ClusterBootstrap intent object. -/
def createClusterBootstrap (st : Store) (cfg : Config) : List ApplyAction × Except String Store :=
  let cb := buildClusterBootstrapUnstructured cfg
  let k : ResKey := ⟨clusterBootstrapGVR.1, clusterBootstrapGVR.2.1, clusterBootstrapGVR.2.2,
    butlerNamespace, getName cb⟩
  match createRes st k cb with
  | .ok st1 => ([.createA], .ok st1)
  | .error _ => ([.createA], .error "creating ClusterBootstrap: already exists")

/-! ## Readiness polling loops (deployer.go lines 211-286) -/

/-- A Go context, as observed by the loops: `doneAt = some k` means the
Done channel is closed from global step `k` on, and `err` is what
`ctx.Err()` then returns (context.Canceled or DeadlineExceeded). -/
structure Ctx where
  doneAt : Option Nat
  err : String

/-- Whether `select { case <-ctx.Done() ... }` fires at a step. -/
def Ctx.isDone (ctx : Ctx) (step : Nat) : Bool :=
  match ctx.doneAt with
  | some k => k ≤ step
  | none => false

/-- Observable events of one polling iteration: an API-server read, or a
wait/backoff pause between reads. -/
inductive PollEvent where
  | apiGetE
  | sleepE
deriving DecidableEq

/-- Go `unstructured.NestedSlice(obj, "status", "conditions")` as
consumed by `WaitForCRDs`: the slice when the path holds one, `none`
otherwise (the code treats not-found and wrong-type alike: it keeps
polling). -/
def nestedSlice (obj : JVal) (k1 k2 : String) : Option (List JVal) :=
  match obj.lookup k1 with
  | some inner => getList inner k2
  | none => none

/-- The established check of `WaitForCRDs` (deployer.go lines 233-248):
some status condition has `type == "Established"` and
`status == "True"` (Go `interface{} == string` comparison: equal exactly
when the dynamic value is that string). -/
def crdEstablished (crd : JVal) : Bool :=
  match nestedSlice crd "status" "conditions" with
  | none => false
  | some conditions =>
    conditions.any (fun c =>
      match c with
      | .obj _ =>
        (match c.lookup "type" with
         | some (.str t) => decide (t = "Established")
         | _ => false) &&
        (match c.lookup "status" with
         | some (.str s) => decide (s = "True")
         | _ => false)
      | _ => false)

/-- The inner `for` of Go `WaitForCRDs` (deployer.go lines 220-253) for
one CRD name.  `get step` is the API server's reply to the Get at step
`step` (`none` embeds an error reply, on which the code continues).
Fuel bounds the unrolling: `none` means the loop is still running.  On
success the next global step index is returned.  The trace records one
`apiGetE` per Get; the loop body contains no sleep or backoff, so no
`sleepE` is ever emitted — it reaches the next Get directly. -/
def waitForCRDsOne (ctx : Ctx) (get : Nat → Option JVal) :
    Nat → Nat → List PollEvent × Option (Except String Nat)
  | _, 0 => ([], none)
  | step, fuel + 1 =>
    if ctx.isDone step then ([], some (.error ctx.err))
    else
      match get step with
      | none =>
        let r := waitForCRDsOne ctx get (step + 1) fuel
        (.apiGetE :: r.1, r.2)
      | some crd =>
        if crdEstablished crd then ([.apiGetE], some (.ok (step + 1)))
        else
          let r := waitForCRDsOne ctx get (step + 1) fuel
          (.apiGetE :: r.1, r.2)

/-- Go `WaitForCRDs` (deployer.go lines 211-257): the outer loop over
the CRD names, each polled to completion in turn. -/
def waitForCRDs (ctx : Ctx) (get : Nat → String → Option JVal) :
    List String → Nat → Nat → List PollEvent × Option (Except String Nat)
  | [], step, _ => ([], some (.ok step))
  | name :: rest, step, fuel =>
    match waitForCRDsOne ctx (fun s => get s name) step fuel with
    | (tr, some (.ok step1)) =>
      let r := waitForCRDs ctx get rest step1 fuel
      (tr ++ r.1, r.2)
    | (tr, some (.error e)) => (tr, some (.error e))
    | (tr, none) => (tr, none)

/-- Go `unstructured.NestedInt64` as consumed by `WaitForDeployment`
(ignored-error form: 0 when absent or not an integer). -/
def nestedInt (obj : JVal) (k1 k2 : String) : Int :=
  match obj.lookup k1 with
  | some inner =>
    match inner.lookup k2 with
    | some (.int n) => n
    | _ => 0
  | none => 0

/-- The readiness condition of `WaitForDeployment` (deployer.go lines
279-284): `readyReplicas >= replicas && replicas > 0`. -/
def deploymentReady (deploy : JVal) : Bool :=
  nestedInt deploy "status" "readyReplicas" ≥ nestedInt deploy "spec" "replicas" ∧
    nestedInt deploy "spec" "replicas" > 0

/-- Go `WaitForDeployment` (deployer.go lines 259-286), same loop shape
as `waitForCRDsOne`: non-blocking context check, Get, ready test, and
straight back to the next Get — no sleep between checks. -/
def waitForDeployment (ctx : Ctx) (get : Nat → Option JVal) :
    Nat → Nat → List PollEvent × Option (Except String Unit)
  | _, 0 => ([], none)
  | step, fuel + 1 =>
    if ctx.isDone step then ([], some (.error ctx.err))
    else
      match get step with
      | none =>
        let r := waitForDeployment ctx get (step + 1) fuel
        (.apiGetE :: r.1, r.2)
      | some deploy =>
        if deploymentReady deploy then ([.apiGetE], some (.ok ()))
        else
          let r := waitForDeployment ctx get (step + 1) fuel
          (.apiGetE :: r.1, r.2)

/-! ## Bootstrap watcher (part_004 lines 945-1031) -/

/-- Go `clusterCredentials` (kubeconfig and talosconfig bytes are lists
of byte values). -/
structure ClusterCredentials where
  kubeconfig : List Nat
  talosconfig : List Nat
  controlPlaneIPs : List String
  consoleURL : String
deriving DecidableEq

/-- The value of a base64 alphabet character of Go
`encoding/base64.StdEncoding` (`A-Z a-z 0-9 + /`); `none` for everything
else, including the padding character. -/
def b64Index (c : Char) : Option Nat :=
  if 'A' ≤ c ∧ c ≤ 'Z' then some (c.toNat - 'A'.toNat)
  else if 'a' ≤ c ∧ c ≤ 'z' then some (c.toNat - 'a'.toNat + 26)
  else if '0' ≤ c ∧ c ≤ '9' then some (c.toNat - '0'.toNat + 52)
  else if c = '+' then some 62
  else if c = '/' then some 63
  else none

/-- Four-character quanta decoding of Go
`base64.StdEncoding.DecodeString` (padded, non-strict): a final quantum
may end in `=` or `==`; padding anywhere else, a leftover of 1-3
characters, or a character outside the alphabet is the error case
(`none`). -/
def b64DecodeQuanta : List Char → Option (List Nat)
  | [] => some []
  | c1 :: c2 :: c3 :: c4 :: rest =>
    match b64Index c1, b64Index c2 with
    | some v1, some v2 =>
      if c3 = '=' then
        if c4 = '=' ∧ rest = [] then some [v1 * 4 + v2 / 16] else none
      else
        match b64Index c3 with
        | some v3 =>
          if c4 = '=' then
            if rest = [] then some [v1 * 4 + v2 / 16, (v2 % 16) * 16 + v3 / 4] else none
          else
            match b64Index c4 with
            | some v4 =>
              match b64DecodeQuanta rest with
              | some bs => some ([v1 * 4 + v2 / 16, (v2 % 16) * 16 + v3 / 4, (v3 % 4) * 64 + v4] ++ bs)
              | none => none
            | none => none
        | none => none
    | _, _ => none
  | _ => none

/-- Go `base64.StdEncoding.DecodeString`: carriage returns and newlines
are ignored, then the input is decoded in four-character quanta. -/
def base64Decode (s : String) : Option (List Nat) :=
  b64DecodeQuanta (s.data.filter (fun c => c ≠ '\r' ∧ c ≠ '\n'))

/-- The control-plane IP collection of `watchBootstrap` (part_004 lines
977-996): over `status["machines"]`, in list order, keep the
`ipAddress` of every map entry with `role == "control-plane"` and a
non-empty `ipAddress` (Go appends to a slice: a left fold). -/
def collectControlPlaneIPs (status : JVal) : List String :=
  match getList status "machines" with
  | none => []
  | some machines =>
    machines.foldl (fun acc m =>
      match m with
      | .obj _ =>
        if getStr m "role" = "control-plane" ∧ getStr m "ipAddress" ≠ "" then
          acc ++ [getStr m "ipAddress"]
        else acc
      | _ => acc) []

/-- What one machine entry contributes to the collected list. -/
def cpIPOf (m : JVal) : Option String :=
  match m with
  | .obj _ =>
    if getStr m "role" = "control-plane" ∧ getStr m "ipAddress" ≠ "" then
      some (getStr m "ipAddress")
    else none
  | _ => none

/-- Outcome of one tick of the watch loop body. -/
inductive StepResult where
  | continueWatch
  | failed (msg : String)
  | errored (msg : String)
  | ready (creds : ClusterCredentials)

/-- The body of Go `watchBootstrap` for one fetched ClusterBootstrap
object (part_004 lines 963-1028): no status map or a phase other than
Ready/Failed keeps polling; Ready decodes the two base64 payloads
(decode failure is the error return; the model keeps the constant part
of Go's `decoding kubeconfig: %w` message) and returns the credentials;
Failed returns the error built from the status's failureReason and
failureMessage. -/
def processStatus (cb : JVal) : StepResult :=
  match cb.lookup "status" with
  | some status =>
    match status with
    | .obj _ =>
      let phase := getStr status "phase"
      let controlPlaneIPs := collectControlPlaneIPs status
      if phase = "Ready" then
        match base64Decode (getStr status "kubeconfig") with
        | none => .errored "decoding kubeconfig: illegal base64 data"
        | some kubeconfigBytes =>
          match base64Decode (getStr status "talosconfig") with
          | none => .errored "decoding talosconfig: illegal base64 data"
          | some talosconfigBytes =>
            .ready ⟨kubeconfigBytes, talosconfigBytes, controlPlaneIPs,
              getStr status "consoleURL"⟩
      else if phase = "Failed" then
        .failed ("bootstrap failed: " ++ getStr status "failureReason" ++ " - " ++
          getStr status "failureMessage")
      else .continueWatch
    | _ => .continueWatch
  | none => .continueWatch

/-- Go `watchBootstrap` (part_004 lines 945-1031): a 5-second ticker
loop.  Each iteration waits on `select`; the model resolves the race in
favour of `ctx.Done()` when both are ready.  A tick is a throttling
pause (`sleepE`) followed by the Get (`apiGetE`); a Get error logs and
keeps polling. -/
def watchBootstrapLoop (ctx : Ctx) (get : Nat → Option JVal) :
    Nat → Nat → List PollEvent × Option (Except String ClusterCredentials)
  | _, 0 => ([], none)
  | step, fuel + 1 =>
    if ctx.isDone step then ([], some (.error ctx.err))
    else
      match get step with
      | none =>
        let r := watchBootstrapLoop ctx get (step + 1) fuel
        (.sleepE :: .apiGetE :: r.1, r.2)
      | some cb =>
        match processStatus cb with
        | .continueWatch =>
          let r := watchBootstrapLoop ctx get (step + 1) fuel
          (.sleepE :: .apiGetE :: r.1, r.2)
        | .failed e => ([.sleepE, .apiGetE], some (.error e))
        | .errored e => ([.sleepE, .apiGetE], some (.error e))
        | .ready creds => ([.sleepE, .apiGetE], some (.ok creds))

/-! ## Talosconfig endpoint repair (part_004 lines 1061-1112) -/

/-- Result of `fixTalosconfigEndpoints`: `unchanged` is every `return
talosconfig` path (the input bytes verbatim); `remarshalled config` is
the `yaml.Marshal(config)` path, carrying the map that is marshalled
(for these map/list/string values the marshal step itself cannot
fail). -/
inductive FixResult where
  | unchanged
  | remarshalled (config : List (String × JVal))

/-- The string entries of the existing `nodes` list of a context map
(part_004 lines 1091-1098): Go collects them into `allNodes`, skipping
non-strings; a missing or ill-typed `nodes` entry yields the empty
list. -/
def nodesStringsOf (contextConfig : List (String × JVal)) : List String :=
  match lookupField contextConfig "nodes" with
  | some (.list ns) =>
    ns.foldl (fun acc n =>
      match n with
      | .str s => acc ++ [s]
      | _ => acc) []
  | _ => []

/-- The repair of a context map with an empty or missing `endpoints`
list (part_004 lines 1088-1101): set `endpoints` to the collected
control-plane addresses and, when the existing `nodes` entry holds no
strings, set `nodes` to them as well. -/
def repairContext (contextConfig : List (String × JVal)) (controlPlaneIPs : List String) :
    List (String × JVal) :=
  let contextConfig1 :=
    setField contextConfig "endpoints" (.list (controlPlaneIPs.map .str))
  if (nodesStringsOf contextConfig).isEmpty then
    setField contextConfig1 "nodes" (.list (controlPlaneIPs.map .str))
  else contextConfig1

/-- Go `fixTalosconfigEndpoints` (part_004 lines 1061-1112).  `parsed`
is the `yaml.Unmarshal` view of the input bytes: `none` when
unmarshalling fails, otherwise the top-level map.  An empty collected
address list, a parse failure, or a missing/ill-typed
`contexts.<clusterName>` map returns the input unchanged.  With an empty
or missing `endpoints` list the context is repaired by `repairContext`;
a non-empty `endpoints` list is left untouched and the parsed map is
remarshalled as-is. -/
def fixTalosconfigEndpoints (parsed : Option (List (String × JVal)))
    (clusterName : String) (controlPlaneIPs : List String) : FixResult :=
  if controlPlaneIPs.isEmpty then .unchanged
  else
    match parsed with
    | none => .unchanged
    | some config =>
      -- Navigate to contexts.<clusterName>.endpoints
      match lookupField config "contexts" with
      | some (.obj contexts) =>
        match lookupField contexts clusterName with
        | some (.obj contextConfig) =>
          -- Check if endpoints is empty or missing
          let endpoints : List JVal :=
            match lookupField contextConfig "endpoints" with
            | some (.list es) => es
            | _ => []
          if endpoints.isEmpty then
            .remarshalled
              (setField config "contexts"
                (.obj (setField contexts clusterName
                  (.obj (repairContext contextConfig controlPlaneIPs)))))
          else .remarshalled config
        | _ => .unchanged
      | _ => .unchanged

/-! ## Dry run and the orchestrator entry point (part_004 lines
75-318) -/

/-- Go `Options`. -/
structure Options where
  DryRun : Bool
  SkipCleanup : Bool
  Timeout : Nat
  LocalDev : Bool
  RepoRoot : String

/-- The observable effects of `Run`: output lines (`printLine` for
`fmt.Println` and the logger lines, `printf` for `fmt.Printf` with the
format string and stringified arguments, `printYaml` for
`fmt.Println(string(yaml.Marshal(obj)))`), and the side-effecting
phases of the non-dry-run path. -/
inductive Effect where
  | printLine (s : String)
  | printf (format : String) (args : List String)
  | printYaml (obj : JVal)
  | createKindClusterE
  | injectHostAliasesE
  | buildAndLoadImagesE
  | createClientsE
  | deployCRDsE
  | createNamespaceAndSecretsE
  | deployControllersE
  | createProviderConfigE
  | createClusterBootstrapE
  | watchBootstrapE
  | saveClusterCredentialsE
  | deleteKindClusterE

/-- Go `getHostAliases` (part_004 lines 424-437). -/
def getHostAliases (cfg : Config) : List String :=
  if cfg.Provider = "nutanix" then
    match cfg.ProviderConfig.Nutanix with
    | some n => n.HostAliases
    | none => []
  else if cfg.Provider = "proxmox" then
    match cfg.ProviderConfig.Proxmox with
    | some p => p.HostAliases
    | none => []
  else []

/-- The format string of the dry run's control-plane machine request
lines (part_004 line 268). -/
def cpReqFmt : String := "- %s-cp-%d (control-plane, %d CPU, %d MB RAM)\n"

/-- The format string of the dry run's worker machine request lines
(part_004 line 274). -/
def workerReqFmt : String := "- %s-worker-%d (worker, %d CPU, %d MB RAM)\n"

/-- Dry run, topology block (part_004 lines 241-251). -/
def dryRunTopologySection (cfg : Config) : List Effect :=
  [.printLine "DRY RUN - showing what would be created",
   .printLine "\n--- Cluster Topology ---",
   .printf "Topology: %s\n" [cfg.Cluster.Topology]] ++
  (if cfg.IsSingleNode then
    [.printf "Mode: Single control plane node running workloads (no workers)\n" [],
     .printf "Note: Control plane replicas forced to 1, workers ignored\n" []]
   else
    [.printf "Mode: HA with separate control plane and workers\n" []])

/-- Dry run, intent object dumps (part_004 lines 253-263): `pc` is the
ProviderConfig object already built at line 254. -/
def dryRunIntentSection (pc : JVal) (cfg : Config) : List Effect :=
  [.printLine "\n--- ProviderConfig ---",
   .printYaml pc,
   .printLine "\n--- ClusterBootstrap ---",
   .printYaml (buildClusterBootstrapUnstructured cfg)]

/-- Dry run, machine request block (part_004 lines 265-279): one
control-plane line per `i` in `0 ≤ i < ControlPlane.Replicas` (`Int.toNat`
embeds the non-executing loop for non-positive counts), then the
topology-aware worker lines. -/
def dryRunMachineRequestSection (cfg : Config) : List Effect :=
  [.printLine "\n--- MachineRequests (created by controller) ---"] ++
  (List.range cfg.Cluster.ControlPlane.Replicas.toNat).map (fun i =>
    .printf cpReqFmt [cfg.Cluster.Name, toString i,
      toString cfg.Cluster.ControlPlane.CPU, toString cfg.Cluster.ControlPlane.MemoryMB]) ++
  (if ¬cfg.IsSingleNode then
    (List.range cfg.Cluster.Workers.Replicas.toNat).map (fun i =>
      .printf workerReqFmt [cfg.Cluster.Name, toString i,
        toString cfg.Cluster.Workers.CPU, toString cfg.Cluster.Workers.MemoryMB])
   else
    [.printLine "(no workers - single-node topology)"])

/-- Dry run, CA certificate block (part_004 lines 281-288); the
filesystem scan `findCACertificates` is passed in as `caCerts`. -/
def dryRunCASection (caCerts : List String) : List Effect :=
  if caCerts.length > 0 then
    [.printLine "\n--- CA Certificates (will be injected into KIND) ---"] ++
    caCerts.map (fun cert => .printf "- %s\n" [cert])
  else []

/-- Dry run, host alias block (part_004 lines 290-297). -/
def dryRunHostAliasSection (cfg : Config) : List Effect :=
  let hostAliases := getHostAliases cfg
  if hostAliases.length > 0 then
    [.printLine "\n--- Host Aliases (will be injected into KIND /etc/hosts) ---"] ++
    hostAliases.map (fun a => .printf "- %s\n" [a])
  else []

/-- Dry run, console block (part_004 lines 299-315). -/
def dryRunConsoleSection (cfg : Config) : List Effect :=
  if cfg.Addons.Console.Enabled then
    [.printLine "\n--- Butler Console ---",
     .printf "Version: %s\n" [cfg.Addons.Console.Version]] ++
    (if cfg.Addons.Console.Ingress.Enabled then
      [.printf "URL: %s://%s\n"
        [if cfg.Addons.Console.Ingress.TLS then "https" else "http",
         cfg.Addons.Console.Ingress.Host]] ++
      (if cfg.Addons.Console.Ingress.ClassName ≠ "" then
        [.printf "Ingress Class: %s\n" [cfg.Addons.Console.Ingress.ClassName]]
       else [])
     else
      [.printLine "Access: via port-forward (no ingress configured)"])
  else []

/-- Go `dryRun` (part_004 lines 239-318): print-only; returns `nil`
when it completes.  When `buildProviderConfigUnstructured` panics at
line 254 (nil provider sub-config for harvester/nutanix), the topology
block has already been printed and nothing later runs: the trace is the
output emitted before the panic and the second component `none` embeds
the crash. -/
def dryRun (cfg : Config) (caCerts : List String) : List Effect × Option Unit :=
  match buildProviderConfigUnstructured cfg with
  | none => (dryRunTopologySection cfg, none)
  | some pc =>
    (dryRunTopologySection cfg ++ dryRunIntentSection pc cfg ++
     dryRunMachineRequestSection cfg ++ dryRunCASection caCerts ++
     dryRunHostAliasSection cfg ++ dryRunConsoleSection cfg, some ())

/-- The outcome of each effectful phase of the non-dry-run path, as
decided by the environment (KIND, Docker, the API server, the
controllers). -/
structure PhaseOutcomes where
  createKind : Except String Unit
  injectAliases : Except String Unit
  buildImages : Except String Unit
  createClients : Except String Unit
  deployCRDs : Except String Unit
  createNsSecrets : Except String Unit
  deployControllers : Except String Unit
  createPC : Except String Unit
  createCB : Except String Unit
  watch : Except String Unit
  saveCreds : Except String Unit

/-- The per-phase sequencing of Go `Run` after the KIND cluster exists
(part_004 lines 144-236): each phase emits its effect and, on error,
aborts the run with the phase's wrap prefix ( `fmt.Errorf("...: %w")` ).
Host alias injection failure only warns (line 148). -/
def runPhases (opts : Options) (cfg : Config) (out : PhaseOutcomes) :
    List Effect × Except String Unit :=
  let aliasFx : List Effect :=
    if (getHostAliases cfg).length > 0 then [.injectHostAliasesE] else []
  let step (fx : Effect) (res : Except String Unit) (wrap : String)
      (rest : List Effect × Except String Unit) : List Effect × Except String Unit :=
    match res with
    | .error e => ([fx], .error (wrap ++ e))
    | .ok _ => (fx :: rest.1, rest.2)
  let tail :=
    step .createClientsE out.createClients "creating clients: " <|
    step .deployCRDsE out.deployCRDs "deploying CRDs: " <|
    step .createNamespaceAndSecretsE out.createNsSecrets "creating namespace/secrets: " <|
    step .deployControllersE out.deployControllers "deploying controllers: " <|
    step .createProviderConfigE out.createPC "creating ProviderConfig: " <|
    step .createClusterBootstrapE out.createCB "creating ClusterBootstrap: " <|
    step .watchBootstrapE out.watch "watching bootstrap: " <|
    step .saveClusterCredentialsE out.saveCreds "saving cluster credentials: " ([], .ok ())
  let tail :=
    if opts.LocalDev then
      step .buildAndLoadImagesE out.buildImages "building/loading images: " tail
    else tail
  (aliasFx ++ tail.1, tail.2)

/-- Go `Run` (part_004 lines 116-237).  Dry-run mode returns the
dry-run output immediately, before the timeout context, the KIND
cluster, or any other effect (a panic inside `dryRun` propagates:
second component `none`).  Otherwise the KIND cluster is created
(failure aborts), the phases run, and the deferred cleanup deletes the
KIND cluster unless `SkipCleanup`. -/
def Run (opts : Options) (cfg : Config) (caCerts : List String) (out : PhaseOutcomes) :
    List Effect × Option (Except String Unit) :=
  if opts.DryRun then
    let r := dryRun cfg caCerts
    (r.1, r.2.map (fun _ => Except.ok ()))
  else
    match out.createKind with
    | .error e => ([.createKindClusterE], some (.error ("creating KIND cluster: " ++ e)))
    | .ok _ =>
      let body := runPhases opts cfg out
      let cleanup : List Effect := if ¬opts.SkipCleanup then [.deleteKindClusterE] else []
      (.createKindClusterE :: body.1 ++ cleanup, some body.2)

/-! ## Theorems -/

theorem cluster_defaultPodCIDR (cfg : Config) :
    (defaultPodCIDR cfg).Cluster = cfg.Cluster := by
  simp only [defaultPodCIDR]; split <;> rfl

theorem cluster_defaultServiceCIDR (cfg : Config) :
    (defaultServiceCIDR cfg).Cluster = cfg.Cluster := by
  simp only [defaultServiceCIDR]; split <;> rfl

theorem cluster_defaultTalosVersion (cfg : Config) :
    (defaultTalosVersion cfg).Cluster = cfg.Cluster := by
  simp only [defaultTalosVersion]; split <;> rfl

theorem cluster_defaultCNIType (cfg : Config) :
    (defaultCNIType cfg).Cluster = cfg.Cluster := by
  simp only [defaultCNIType]; split <;> rfl

theorem cluster_defaultStorageType (cfg : Config) :
    (defaultStorageType cfg).Cluster = cfg.Cluster := by
  simp only [defaultStorageType]; split <;> rfl

theorem cluster_defaultLoadBalancerType (cfg : Config) :
    (defaultLoadBalancerType cfg).Cluster = cfg.Cluster := by
  simp only [defaultLoadBalancerType]; split <;> rfl

theorem cluster_defaultGitOpsType (cfg : Config) :
    (defaultGitOpsType cfg).Cluster = cfg.Cluster := by
  simp only [defaultGitOpsType]; split <;> rfl

theorem cluster_applyNetworkAddonDefaults (cfg : Config) :
    (applyNetworkAddonDefaults cfg).Cluster = cfg.Cluster := by
  simp only [applyNetworkAddonDefaults, cluster_defaultGitOpsType,
    cluster_defaultLoadBalancerType, cluster_defaultStorageType, cluster_defaultCNIType,
    cluster_defaultTalosVersion, cluster_defaultServiceCIDR, cluster_defaultPodCIDR]

theorem cluster_defaultConsoleVersion (cfg : Config) :
    (defaultConsoleVersion cfg).Cluster = cfg.Cluster := by
  simp only [defaultConsoleVersion]; split <;> rfl

theorem cluster_defaultConsoleHost (cfg : Config) :
    (defaultConsoleHost cfg).Cluster = cfg.Cluster := by
  simp only [defaultConsoleHost]; split <;> rfl

theorem cluster_applyConsoleDefaults (cfg : Config) :
    (applyConsoleDefaults cfg).Cluster = cfg.Cluster := by
  simp only [applyConsoleDefaults, cluster_defaultConsoleHost, cluster_defaultConsoleVersion]

theorem cluster_defaultNutanixPort (cfg : Config) :
    (defaultNutanixPort cfg).Cluster = cfg.Cluster := by
  simp only [defaultNutanixPort]
  split <;> first | rfl | (split <;> rfl)

theorem cluster_expandHarvesterPath (home : Option String) (cfg : Config) :
    (expandHarvesterPath home cfg).Cluster = cfg.Cluster := by
  simp only [expandHarvesterPath]
  split <;> first | rfl | (split <;> rfl)

theorem cluster_applyProviderDefaults (home : Option String) (cfg : Config) :
    (applyProviderDefaults home cfg).Cluster = cfg.Cluster := by
  simp only [applyProviderDefaults, cluster_expandHarvesterPath, cluster_defaultNutanixPort]

theorem enforceSingleNode_forces (cfg : Config)
    (h : cfg.Cluster.Topology = "single-node") :
    (enforceSingleNode cfg).Cluster.ControlPlane.Replicas = 1 ∧
    (enforceSingleNode cfg).Cluster.Topology = "single-node" := by
  simp only [enforceSingleNode]
  split
  · exact ⟨rfl, h⟩
  · next hc =>
    push_neg at hc
    exact ⟨hc h, h⟩

theorem buildCB_singleNode_no_workers (cfg : Config) (h : cfg.IsSingleNode = true) :
    clusterWorkersField (buildClusterBootstrapUnstructured cfg) = some none := by
  simp [buildClusterBootstrapUnstructured, clusterWorkersField, h, JVal.lookup, lookupField]

/-- C1: for every configuration with topology `single-node`, `LoadConfig`
forces `cluster.controlPlane.replicas` to 1 regardless of the input
value, and the ClusterBootstrap intent object built by
`buildClusterBootstrapUnstructured` from the loaded configuration has a
cluster spec with no `workers` key (the key is absent, not zeroed). -/
theorem singleNode_forces_replicas_and_omits_workers (home : Option String)
    (cfg cfg2 : Config) (h : LoadConfig home cfg = .ok cfg2)
    (htop : cfg.Cluster.Topology = "single-node") :
    cfg2.Cluster.ControlPlane.Replicas = 1 ∧
    clusterWorkersField (buildClusterBootstrapUnstructured cfg2) = some none := by
  have hA : (applyTopologyDefault (applyNetworkAddonDefaults cfg)).Cluster = cfg.Cluster := by
    simp [applyTopologyDefault, cluster_applyNetworkAddonDefaults, htop]
  rw [LoadConfig] at h
  simp only [hA, htop] at h
  norm_num at h
  have hcfg2 : cfg2 = applyProviderDefaults home (applyConsoleDefaults
      (enforceSingleNode (applyTopologyDefault (applyNetworkAddonDefaults cfg)))) := h.symm
  have hEnf := enforceSingleNode_forces (applyTopologyDefault (applyNetworkAddonDefaults cfg))
    (by rw [hA, htop])
  have hCl : cfg2.Cluster =
      (enforceSingleNode (applyTopologyDefault (applyNetworkAddonDefaults cfg))).Cluster := by
    rw [hcfg2, cluster_applyProviderDefaults, cluster_applyConsoleDefaults]
  refine ⟨?_, ?_⟩
  · rw [hCl]; exact hEnf.1
  · exact buildCB_singleNode_no_workers cfg2 (by
      simp [Config.IsSingleNode, hCl, hEnf.2])

/-- Witness configuration for C1: topology `single-node` with three
requested control-plane replicas and a non-trivial workers pool. -/
def cfgW : Config where
  Provider := "harvester"
  Cluster := ⟨"demo", "single-node", ⟨3, 4, 8192, 100, []⟩, ⟨2, 2, 4096, 50, []⟩⟩
  Network := ⟨"10.244.0.0/16", "10.96.0.0/12", "10.0.0.5"⟩
  Talos := ⟨"v1.9.0", ""⟩
  Addons := ⟨⟨"cilium"⟩, ⟨"longhorn"⟩, ⟨"metallb", ""⟩, ⟨"flux"⟩, ⟨false, ""⟩,
    ⟨false, "", ""⟩, ⟨false, "", ⟨false, "", "", false, ""⟩, ⟨"", ""⟩⟩⟩
  ProviderConfig := ⟨none, none, none⟩

/-- The configuration `LoadConfig` produces from `cfgW`: identical but
with the control-plane replicas forced to 1. -/
def cfgW2 : Config :=
  { cfgW with Cluster := { cfgW.Cluster with
      ControlPlane := { cfgW.Cluster.ControlPlane with Replicas := 1 } } }

theorem singleNode_forces_replicas_and_omits_workers_witness :
    cfgW2.Cluster.ControlPlane.Replicas = 1 ∧
    clusterWorkersField (buildClusterBootstrapUnstructured cfgW2) = some none :=
  singleNode_forces_replicas_and_omits_workers none cfgW cfgW2 (by rfl) (by rfl)

theorem countKey_eq_zero_of_findRes_none (st : Store) (k : ResKey)
    (h : findRes st k = none) : countKey st k = 0 := by
  induction st with
  | nil => rfl
  | cons p rest ih =>
    obtain ⟨pk, po⟩ := p
    rw [findRes] at h
    by_cases hk : pk = k
    · simp [hk] at h
    · rw [if_neg hk] at h
      simp [countKey, List.countP_cons, hk] at ih ⊢
      exact ih h

theorem findRes_replaceRes (st : Store) (k : ResKey) (ex no : StoredObj)
    (h : findRes st k = some ex) :
    findRes (replaceRes st k no) k = some no := by
  induction st with
  | nil => simp [findRes] at h
  | cons p rest ih =>
    obtain ⟨pk, po⟩ := p
    rw [findRes] at h
    by_cases hk : pk = k
    · simp [replaceRes, hk, findRes]
    · rw [if_neg hk] at h
      simp only [replaceRes, if_neg hk, findRes]
      exact ih h

theorem keys_replaceRes (st : Store) (k : ResKey) (no : StoredObj) :
    (replaceRes st k no).map Prod.fst = st.map Prod.fst := by
  induction st with
  | nil => rfl
  | cons p rest ih =>
    obtain ⟨pk, po⟩ := p
    by_cases hk : pk = k
    · simp [replaceRes, hk]
    · simp [replaceRes, hk, ih]

theorem countKey_replaceRes (st : Store) (k k' : ResKey) (no : StoredObj) :
    countKey (replaceRes st k no) k' = countKey st k' := by
  induction st with
  | nil => rfl
  | cons p rest ih =>
    obtain ⟨pk, po⟩ := p
    simp only [countKey, List.countP_cons] at ih ⊢
    by_cases hk : pk = k
    · subst hk
      simp [replaceRes, List.countP_cons, ih]
    · simp [replaceRes, hk, List.countP_cons, ih]

theorem length_replaceRes (st : Store) (k : ResKey) (no : StoredObj) :
    (replaceRes st k no).length = st.length := by
  have h := congrArg List.length (keys_replaceRes st k no)
  simpa using h

theorem countKey_one_of_wf (st : Store) (k : ResKey) (ex : StoredObj)
    (hwf : StoreWF st) (h : findRes st k = some ex) : countKey st k = 1 := by
  induction st with
  | nil => simp [findRes] at h
  | cons p rest ih =>
    obtain ⟨pk, po⟩ := p
    rw [findRes] at h
    rw [StoreWF, List.map_cons, List.nodup_cons] at hwf
    simp only [countKey, List.countP_cons]
    by_cases hk : pk = k
    · subst hk
      have hz : countKey rest pk = 0 := by
        have : findRes rest pk = none := by
          cases hf : findRes rest pk with
          | none => rfl
          | some o =>
            exfalso
            apply hwf.1
            clear ih h hwf
            induction rest with
            | nil => simp [findRes] at hf
            | cons q qrest qih =>
              obtain ⟨qk, qo⟩ := q
              rw [findRes] at hf
              by_cases hq : qk = pk
              · simp [hq]
              · rw [if_neg hq] at hf
                simp only [List.map_cons, List.mem_cons]
                exact Or.inr (qih hf)
        exact countKey_eq_zero_of_findRes_none rest pk this
      rw [countKey] at hz
      simp [hz]
    · rw [if_neg hk] at h
      have hr := ih hwf.2 h
      rw [countKey] at hr
      simp [hr, hk]

theorem applyResource_fresh (st : Store) (obj : JVal)
    (h : findRes st (resKeyOf obj) = none) :
    applyResource st obj = ([.createA], .ok ((resKeyOf obj, ⟨obj, 1⟩) :: st)) := by
  simp only [applyResource, createRes, h]

theorem applyResource_existing (st : Store) (obj : JVal) (ex : StoredObj)
    (h : findRes st (resKeyOf obj) = some ex) :
    applyResource st obj =
      ([.createA, .getA, .updateA],
       .ok (replaceRes st (resKeyOf obj) ⟨obj, ex.resourceVersion + 1⟩)) := by
  simp [applyResource, createRes, updateRes, h]

/-- C3: applying the same manifest document twice in succession against
the same store is idempotent.  After a successful first application, the
second application attempts creation, hits the existing object, fetches
it to carry its `resourceVersion` forward, and updates in place (the
call sequence is exactly create-get-update); it returns no error, the
object's identity is stored exactly once, and no new object is added
(the store size is unchanged). -/
theorem applyResource_idempotent (st st1 : Store) (obj : JVal) (hwf : StoreWF st)
    (h1 : (applyResource st obj).2 = .ok st1) :
    (applyResource st1 obj).1 = [.createA, .getA, .updateA] ∧
    (applyResource st1 obj).2.map
        (fun st2 => (countKey st2 (resKeyOf obj), st2.length)) = .ok (1, st1.length) := by
  cases hfind : findRes st (resKeyOf obj) with
  | none =>
    rw [applyResource_fresh st obj hfind] at h1
    simp only at h1
    cases h1
    have hfind1 : findRes ((resKeyOf obj, (⟨obj, 1⟩ : StoredObj)) :: st) (resKeyOf obj) =
        some ⟨obj, 1⟩ := by simp [findRes]
    rw [applyResource_existing _ obj ⟨obj, 1⟩ hfind1]
    refine ⟨rfl, ?_⟩
    have hc0 := countKey_eq_zero_of_findRes_none st (resKeyOf obj) hfind
    simp only [Except.map]
    rw [countKey_replaceRes, length_replaceRes]
    simp [countKey, List.countP_cons]
    rw [countKey, List.countP_eq_zero] at hc0
    intro a b hab
    have hne := hc0 (a, b) hab
    simpa using hne
  | some ex =>
    rw [applyResource_existing st obj ex hfind] at h1
    simp only at h1
    cases h1
    have hfind1 := findRes_replaceRes st (resKeyOf obj) ex
      ⟨obj, ex.resourceVersion + 1⟩ hfind
    rw [applyResource_existing _ obj _ hfind1]
    refine ⟨rfl, ?_⟩
    have h1c := countKey_one_of_wf st (resKeyOf obj) ex hwf hfind
    simp [Except.map, countKey_replaceRes, length_replaceRes, h1c]

/-- A concrete manifest document for the C3 witness. -/
def objW : JVal :=
  .obj [("apiVersion", .str "v1"), ("kind", .str "ConfigMap"),
        ("metadata", .obj [("name", .str "butler-cm"), ("namespace", .str "butler-system")]),
        ("data", .obj [("k", .str "v")])]

/-- The store after the first application of `objW` to an empty store. -/
def st1W : Store := [(resKeyOf objW, ⟨objW, 1⟩)]

theorem applyResource_idempotent_witness :
    (applyResource st1W objW).1 = [.createA, .getA, .updateA] ∧
    (applyResource st1W objW).2.map
        (fun st2 => (countKey st2 (resKeyOf objW), st2.length)) = .ok (1, st1W.length) :=
  applyResource_idempotent [] st1W objW (by simp [StoreWF]) (by rfl)

/-- The store identity `createClusterBootstrap` targets. -/
def cbKeyOf (cfg : Config) : ResKey :=
  ⟨clusterBootstrapGVR.1, clusterBootstrapGVR.2.1, clusterBootstrapGVR.2.2,
   butlerNamespace, getName (buildClusterBootstrapUnstructured cfg)⟩

/-- C8: the two intent objects are create-once.  For every
configuration whose matching provider variant is present (so the
ProviderConfig builder does not hit its nil-pointer panic),
`createProviderConfig` and `createClusterBootstrap` each issue exactly
one Create call — never a Get or Update, so no fallback to updating or
reusing an existing object — and when an object of the same identity
already exists the call returns the wrapped creation error, leaving the
store unchanged. -/
theorem intent_objects_create_once (st : Store) (cfg : Config) (pc : JVal)
    (hpc : buildProviderConfigUnstructured cfg = some pc) :
    (createProviderConfig st cfg).map Prod.fst = some [.createA] ∧
    (createClusterBootstrap st cfg).1 = [.createA] ∧
    ((findRes st (pcKeyFor pc)).isSome = true →
      (createProviderConfig st cfg).map Prod.snd =
        some (.error "creating ProviderConfig: already exists")) ∧
    ((findRes st (cbKeyOf cfg)).isSome = true →
      (createClusterBootstrap st cfg).2 = .error "creating ClusterBootstrap: already exists") := by
  refine ⟨?_, ?_, ?_, ?_⟩
  · simp only [createProviderConfig, hpc]
    split <;> rfl
  · simp only [createClusterBootstrap]
    split <;> rfl
  · intro hsome
    simp only [createProviderConfig, hpc]
    cases hf : findRes st (pcKeyFor pc) with
    | none => simp [hf] at hsome
    | some ex => simp [createRes, hf]
  · intro hsome
    rw [createClusterBootstrap]
    cases hf : findRes st (cbKeyOf cfg) with
    | none => simp [hf] at hsome
    | some ex =>
      rw [cbKeyOf] at hf
      simp [createRes, hf]

/-- A populated Harvester provider config for the C8/C9 witnesses. -/
def harvesterW : HarvesterProviderConfig :=
  ⟨"/home/dev/.harvester/kubeconfig", "butler-vms", "butler-vms/vlan100", "butler-vms/talos"⟩

/-- The C1 witness configuration with its Harvester variant populated,
so the ProviderConfig builder takes its non-panicking path. -/
def cfgHW : Config := { cfgW with ProviderConfig := ⟨some harvesterW, none, none⟩ }

/-- The ProviderConfig object the builder produces from `cfgHW`. -/
def pcHW : JVal :=
  .obj [
    ("apiVersion", .str (butlerAPIGroup ++ "/" ++ butlerAPIVersion)),
    ("kind", .str "ProviderConfig"),
    ("metadata", .obj [
      ("name", .str "demo-provider"),
      ("namespace", .str butlerNamespace)]),
    ("spec", .obj [
      ("provider", .str "harvester"),
      ("credentialsRef", .obj [
        ("name", .str "demo-harvester-credentials"),
        ("namespace", .str butlerNamespace),
        ("key", .str "kubeconfig")]),
      ("harvester", .obj [
        ("namespace", .str "butler-vms"),
        ("networkName", .str "butler-vms/vlan100"),
        ("imageName", .str "butler-vms/talos")])])]

/-- A store that already holds both intent objects for `cfgHW`. -/
def stIntentW : Store :=
  [(pcKeyFor pcHW, ⟨.obj [], 1⟩), (cbKeyOf cfgHW, ⟨.obj [], 1⟩)]

theorem intent_objects_create_once_witness :
    (createProviderConfig stIntentW cfgHW).map Prod.fst = some [.createA] ∧
    (createClusterBootstrap stIntentW cfgHW).1 = [.createA] ∧
    (createProviderConfig stIntentW cfgHW).map Prod.snd =
      some (.error "creating ProviderConfig: already exists") ∧
    (createClusterBootstrap stIntentW cfgHW).2 =
      .error "creating ClusterBootstrap: already exists" := by
  have h := intent_objects_create_once stIntentW cfgHW pcHW (by rfl)
  exact ⟨h.1, h.2.1, h.2.2.1 (by rfl), h.2.2.2 (by rfl)⟩

theorem watchBootstrap_failed_surfaces_reason (cb : JVal) (fields : List (String × JVal))
    (hs : cb.lookup "status" = some (.obj fields))
    (hphase : getStr (.obj fields) "phase" = "Failed") :
    processStatus cb = .failed ("bootstrap failed: " ++ getStr (.obj fields) "failureReason" ++
      " - " ++ getStr (.obj fields) "failureMessage") ∧
    (getStr (.obj fields) "failureReason").data <:+:
      ("bootstrap failed: " ++ getStr (.obj fields) "failureReason" ++
        " - " ++ getStr (.obj fields) "failureMessage").data ∧
    (getStr (.obj fields) "failureMessage").data <:+:
      ("bootstrap failed: " ++ getStr (.obj fields) "failureReason" ++
        " - " ++ getStr (.obj fields) "failureMessage").data := by
  refine ⟨?_, ?_, ?_⟩
  · simp only [processStatus, hs]
    rw [hphase]
    norm_num
    exact fun h => absurd h (by decide)
  · exact ⟨("bootstrap failed: ").data,
      (" - " ++ getStr (.obj fields) "failureMessage").data,
      by simp [String.data_append, List.append_assoc]⟩
  · exact ⟨("bootstrap failed: " ++ getStr (.obj fields) "failureReason" ++ " - ").data,
      [], by simp [String.data_append, List.append_assoc]⟩

/-- The status map of the C4 witness: phase `Failed` with the scripted
reason and message. -/
def failedStatusW : List (String × JVal) :=
  [("phase", .str "Failed"), ("failureReason", .str "QuotaExceeded"),
   ("failureMessage", .str "no IP addresses available")]

theorem watchBootstrap_failed_surfaces_reason_witness :
    processStatus (.obj [("status", .obj failedStatusW)]) =
      .failed ("bootstrap failed: " ++ getStr (.obj failedStatusW) "failureReason" ++
        " - " ++ getStr (.obj failedStatusW) "failureMessage") ∧
    ("QuotaExceeded" : String).data <:+:
      ("bootstrap failed: " ++ getStr (.obj failedStatusW) "failureReason" ++
        " - " ++ getStr (.obj failedStatusW) "failureMessage").data ∧
    ("no IP addresses available" : String).data <:+:
      ("bootstrap failed: " ++ getStr (.obj failedStatusW) "failureReason" ++
        " - " ++ getStr (.obj failedStatusW) "failureMessage").data :=
  watchBootstrap_failed_surfaces_reason (.obj [("status", .obj failedStatusW)])
    failedStatusW (by rfl) (by rfl)

theorem foldl_collect_eq_filterMap (ms : List JVal) (acc : List String) :
    ms.foldl (fun acc m =>
      match m with
      | .obj _ =>
        if getStr m "role" = "control-plane" ∧ getStr m "ipAddress" ≠ "" then
          acc ++ [getStr m "ipAddress"]
        else acc
      | _ => acc) acc = acc ++ ms.filterMap cpIPOf := by
  induction ms generalizing acc with
  | nil => simp
  | cons m rest ih =>
    simp only [List.foldl_cons, List.filterMap_cons]
    cases m with
    | obj fs =>
      rw [ih]
      by_cases hc : getStr (.obj fs) "role" = "control-plane" ∧ getStr (.obj fs) "ipAddress" ≠ ""
      · simp [cpIPOf, hc]
      · simp [cpIPOf, hc]
    | str s => simp [cpIPOf, ih]
    | int n => simp [cpIPOf, ih]
    | bool b => simp [cpIPOf, ih]
    | list xs => simp [cpIPOf, ih]

theorem collectControlPlaneIPs_eq_filterMap (status : JVal) :
    collectControlPlaneIPs status = ((getList status "machines").getD []).filterMap cpIPOf := by
  rw [collectControlPlaneIPs]
  cases h : getList status "machines" with
  | none => simp
  | some ms => simp [foldl_collect_eq_filterMap]

/-- C5 (amended): when the watcher body observes phase `Ready` and both
base64 payloads (kubeconfig and talosconfig) decode, it returns
credentials holding the decoded kubeconfig bytes and exactly the
addresses of status machines tagged role `control-plane` with a
non-empty `ipAddress`, in status-list order; when the kubeconfig — or
the kubeconfig decodes but the talosconfig — fails to decode, it
returns an error, never credentials. -/
theorem watchBootstrap_ready_credentials (cb : JVal) (fields : List (String × JVal))
    (hs : cb.lookup "status" = some (.obj fields))
    (hphase : getStr (.obj fields) "phase" = "Ready") :
    (∀ kb tb, base64Decode (getStr (.obj fields) "kubeconfig") = some kb →
      base64Decode (getStr (.obj fields) "talosconfig") = some tb →
      processStatus cb = .ready ⟨kb, tb,
        ((getList (.obj fields) "machines").getD []).filterMap cpIPOf,
        getStr (.obj fields) "consoleURL"⟩) ∧
    (base64Decode (getStr (.obj fields) "kubeconfig") = none →
      processStatus cb = .errored "decoding kubeconfig: illegal base64 data") ∧
    (∀ kb, base64Decode (getStr (.obj fields) "kubeconfig") = some kb →
      base64Decode (getStr (.obj fields) "talosconfig") = none →
      processStatus cb = .errored "decoding talosconfig: illegal base64 data") := by
  refine ⟨?_, ?_, ?_⟩
  · intro kb tb hkb htb
    simp only [processStatus, hs, hphase]
    norm_num [hkb, htb, collectControlPlaneIPs_eq_filterMap]
  · intro hkb
    simp only [processStatus, hs, hphase]
    norm_num [hkb]
  · intro kb hkb htb
    simp only [processStatus, hs, hphase]
    norm_num [hkb, htb]

/-- The status map of the C5 witness: phase `Ready`, kubeconfig
`"QQ=="` (decoding to the byte 65), empty talosconfig, and a machine
list mixing control-plane entries with and without addresses and a
worker. -/
def readyStatusW : List (String × JVal) :=
  [("phase", .str "Ready"), ("kubeconfig", .str "QQ=="), ("talosconfig", .str ""),
   ("consoleURL", .str "http://console.demo.local"),
   ("machines", .list [
      .obj [("name", .str "demo-cp-0"), ("role", .str "control-plane"),
            ("ipAddress", .str "10.0.0.11")],
      .obj [("name", .str "demo-worker-0"), ("role", .str "worker"),
            ("ipAddress", .str "10.0.0.99")],
      .obj [("name", .str "demo-cp-1"), ("role", .str "control-plane"),
            ("ipAddress", .str "")],
      .obj [("name", .str "demo-cp-2"), ("role", .str "control-plane"),
            ("ipAddress", .str "10.0.0.12")]])]

theorem watchBootstrap_ready_credentials_witness :
    processStatus (.obj [("status", .obj readyStatusW)]) =
      .ready ⟨[65], [], ["10.0.0.11", "10.0.0.12"], "http://console.demo.local"⟩ := by
  have h := (watchBootstrap_ready_credentials (.obj [("status", .obj readyStatusW)])
    readyStatusW (by rfl) (by rfl)).1 [65] [] (by rfl) (by rfl)
  rw [h]
  rfl

/-- Counterexample to C5 as stated: a status with phase `Ready` and a
valid base64 kubeconfig payload (`"QQ=="`, decoding to the byte 65)
whose talosconfig payload is not base64; the watcher body returns the
talosconfig decode error, not credentials. -/
theorem watchBootstrap_ready_counterexample :
    base64Decode "QQ==" = some [65] ∧
    getStr (.obj [("phase", .str "Ready"), ("kubeconfig", .str "QQ=="),
      ("talosconfig", .str "!!")]) "phase" = "Ready" ∧
    processStatus (.obj [("status", .obj [("phase", .str "Ready"),
      ("kubeconfig", .str "QQ=="), ("talosconfig", .str "!!")])]) =
      .errored "decoding talosconfig: illegal base64 data" :=
  ⟨by rfl, by rfl, by rfl⟩

theorem lookupField_setField_self (fs : List (String × JVal)) (k : String) (v : JVal) :
    lookupField (setField fs k v) k = some v := by
  induction fs with
  | nil => simp [setField, lookupField]
  | cons p rest ih =>
    obtain ⟨pk, pv⟩ := p
    by_cases hk : pk = k
    · simp [setField, hk, lookupField]
    · simp [setField, hk, lookupField, ih]

theorem lookupField_setField_ne (fs : List (String × JVal)) (k k' : String) (v : JVal)
    (h : k' ≠ k) : lookupField (setField fs k' v) k = lookupField fs k := by
  induction fs with
  | nil => simp [setField, lookupField, h]
  | cons p rest ih =>
    obtain ⟨pk, pv⟩ := p
    by_cases hk : pk = k'
    · simp [setField, hk, lookupField, h]
    · simp [setField, hk, lookupField, ih]

/-- C6: the talosconfig repair is non-destructive.  With a non-empty
collected address list and a parseable config holding the cluster's
context: when the context's `endpoints` list is empty or missing, the
result is the remarshalled config whose context is repaired — its
`endpoints` entry is exactly the collected control-plane addresses;
when the `endpoints` list is already non-empty, the parsed map is
remarshalled unmodified — every entry, `endpoints` included, is left
untouched (no duplication, no overwrite). -/
theorem fixTalosconfigEndpoints_nondestructive
    (config contexts contextConfig : List (String × JVal))
    (clusterName : String) (controlPlaneIPs : List String)
    (hips : controlPlaneIPs ≠ [])
    (hcx : lookupField config "contexts" = some (.obj contexts))
    (hcc : lookupField contexts clusterName = some (.obj contextConfig)) :
    ((match lookupField contextConfig "endpoints" with
        | some (.list es) => es
        | _ => []) = [] →
      fixTalosconfigEndpoints (some config) clusterName controlPlaneIPs =
        .remarshalled (setField config "contexts"
          (.obj (setField contexts clusterName
            (.obj (repairContext contextConfig controlPlaneIPs))))) ∧
      lookupField (repairContext contextConfig controlPlaneIPs) "endpoints" =
        some (.list (controlPlaneIPs.map .str))) ∧
    (∀ e es, (match lookupField contextConfig "endpoints" with
        | some (.list es) => es
        | _ => []) = e :: es →
      fixTalosconfigEndpoints (some config) clusterName controlPlaneIPs =
        .remarshalled config) := by
  have hne : controlPlaneIPs.isEmpty = false := by
    cases controlPlaneIPs with
    | nil => exact absurd rfl hips
    | cons a l => rfl
  constructor
  · intro hemp
    constructor
    · simp only [fixTalosconfigEndpoints, hne, hcx, hcc, hemp]
      norm_num
    · rw [repairContext]
      by_cases hn : (nodesStringsOf contextConfig).isEmpty
      · simp only [if_pos hn]
        rw [lookupField_setField_ne _ _ _ _ (by decide)]
        exact lookupField_setField_self contextConfig "endpoints" _
      · simp only [if_neg hn]
        exact lookupField_setField_self contextConfig "endpoints" _
  · intro e es hcons
    simp only [fixTalosconfigEndpoints, hne, hcx, hcc, hcons]
    norm_num

/-- The context map of the C6/C10 witness: no `endpoints` and no
`nodes` entry. -/
def ctxCfgW : List (String × JVal) := [("ca", .str "dGVzdA==")]

/-- The parsed talosconfig of the C6/C10 witness. -/
def talosCfgW : List (String × JVal) :=
  [("context", .str "demo"), ("contexts", .obj [("demo", .obj ctxCfgW)])]

theorem fixTalosconfigEndpoints_nondestructive_witness :
    fixTalosconfigEndpoints (some talosCfgW) "demo" ["10.0.0.11", "10.0.0.12"] =
      .remarshalled (setField talosCfgW "contexts"
        (.obj (setField [("demo", .obj ctxCfgW)] "demo"
          (.obj (repairContext ctxCfgW ["10.0.0.11", "10.0.0.12"]))))) ∧
    lookupField (repairContext ctxCfgW ["10.0.0.11", "10.0.0.12"]) "endpoints" =
      some (.list [.str "10.0.0.11", .str "10.0.0.12"]) :=
  (fixTalosconfigEndpoints_nondestructive talosCfgW [("demo", .obj ctxCfgW)] ctxCfgW
    "demo" ["10.0.0.11", "10.0.0.12"] (by simp) (by rfl) (by rfl)).1 (by rfl)

/-- C10: the frame conditions of the talosconfig repair.  The input is
returned byte-for-byte unchanged (`FixResult.unchanged`) whenever the
collected control-plane address list is empty, the talosconfig fails to
parse as YAML, or the expected `contexts.<clusterName>` structure is
absent; and when an empty-endpoints context with no `nodes` entry is
repaired, the repaired context's `nodes` field is set to the
control-plane addresses. -/
theorem fixTalosconfigEndpoints_frame (parsed : Option (List (String × JVal)))
    (config contexts contextConfig : List (String × JVal))
    (clusterName : String) (ips : List String) :
    (fixTalosconfigEndpoints parsed clusterName [] = .unchanged) ∧
    (fixTalosconfigEndpoints none clusterName ips = .unchanged) ∧
    (lookupField config "contexts" = none →
      fixTalosconfigEndpoints (some config) clusterName ips = .unchanged) ∧
    (lookupField config "contexts" = some (.obj contexts) →
      lookupField contexts clusterName = none →
      fixTalosconfigEndpoints (some config) clusterName ips = .unchanged) ∧
    (ips ≠ [] →
      lookupField config "contexts" = some (.obj contexts) →
      lookupField contexts clusterName = some (.obj contextConfig) →
      lookupField contextConfig "nodes" = none →
      (match lookupField contextConfig "endpoints" with
        | some (.list es) => es
        | _ => []) = [] →
      fixTalosconfigEndpoints (some config) clusterName ips =
        .remarshalled (setField config "contexts"
          (.obj (setField contexts clusterName (.obj (repairContext contextConfig ips))))) ∧
      lookupField (repairContext contextConfig ips) "nodes" =
        some (.list (ips.map .str))) := by
  refine ⟨?_, ?_, ?_, ?_, ?_⟩
  · simp [fixTalosconfigEndpoints]
  · cases hip : ips.isEmpty <;> simp [fixTalosconfigEndpoints, hip]
  · intro h
    cases hip : ips.isEmpty <;> simp [fixTalosconfigEndpoints, hip, h]
  · intro hcx hcc
    cases hip : ips.isEmpty <;> simp [fixTalosconfigEndpoints, hip, hcx, hcc]
  · intro hips hcx hcc hnodes hemp
    have hne : ips.isEmpty = false := by
      cases ips with
      | nil => exact absurd rfl hips
      | cons a l => rfl
    constructor
    · simp only [fixTalosconfigEndpoints, hne, hcx, hcc, hemp]
      norm_num
    · rw [repairContext]
      have hz : nodesStringsOf contextConfig = [] := by
        rw [nodesStringsOf, hnodes]
      rw [hz]
      simp only [List.isEmpty_nil, if_pos]
      exact lookupField_setField_self _ "nodes" _

theorem fixTalosconfigEndpoints_frame_witness :
    fixTalosconfigEndpoints (some talosCfgW) "demo" [] = .unchanged ∧
    fixTalosconfigEndpoints none "demo" ["10.0.0.11"] = .unchanged ∧
    fixTalosconfigEndpoints (some [("a", .str "b")]) "demo" ["10.0.0.11"] = .unchanged ∧
    fixTalosconfigEndpoints (some talosCfgW) "other" ["10.0.0.11"] = .unchanged ∧
    (fixTalosconfigEndpoints (some talosCfgW) "demo" ["10.0.0.11"] =
      .remarshalled (setField talosCfgW "contexts"
        (.obj (setField [("demo", .obj ctxCfgW)] "demo"
          (.obj (repairContext ctxCfgW ["10.0.0.11"]))))) ∧
     lookupField (repairContext ctxCfgW ["10.0.0.11"]) "nodes" =
       some (.list [.str "10.0.0.11"])) := by
  have h1 := fixTalosconfigEndpoints_frame (some talosCfgW) [("a", .str "b")]
    [("demo", .obj ctxCfgW)] ctxCfgW "demo" ["10.0.0.11"]
  have h2 := fixTalosconfigEndpoints_frame (some talosCfgW) talosCfgW
    [("demo", .obj ctxCfgW)] ctxCfgW "other" ["10.0.0.11"]
  have h3 := fixTalosconfigEndpoints_frame (some talosCfgW) talosCfgW
    [("demo", .obj ctxCfgW)] ctxCfgW "demo" ["10.0.0.11"]
  exact ⟨h1.1, h1.2.1, h1.2.2.1 (by rfl), h2.2.2.2.1 (by rfl) (by rfl),
    h3.2.2.2.2 (by simp) (by rfl) (by rfl) (by rfl) (by rfl)⟩

theorem waitForCRDsOne_error_ctx (ctx : Ctx) (get : Nat → Option JVal) :
    ∀ f s e, (waitForCRDsOne ctx get s f).2 = some (.error e) → e = ctx.err := by
  intro f
  induction f with
  | zero => intro s e h; simp [waitForCRDsOne] at h
  | succ n ih =>
    intro s e h
    rw [waitForCRDsOne] at h
    cases hd : ctx.isDone s with
    | true => simp [hd] at h; exact h.symm
    | false =>
      simp only [hd, Bool.false_eq_true, if_false] at h
      cases hg : get s with
      | none => simp [hg] at h; exact ih _ _ h
      | some crd =>
        cases hest : crdEstablished crd with
        | true => simp [hg, hest] at h
        | false => simp [hg, hest] at h; exact ih _ _ h

theorem waitForDeployment_error_ctx (ctx : Ctx) (get : Nat → Option JVal) :
    ∀ f s e, (waitForDeployment ctx get s f).2 = some (.error e) → e = ctx.err := by
  intro f
  induction f with
  | zero => intro s e h; simp [waitForDeployment] at h
  | succ n ih =>
    intro s e h
    rw [waitForDeployment] at h
    cases hd : ctx.isDone s with
    | true => simp [hd] at h; exact h.symm
    | false =>
      simp only [hd, Bool.false_eq_true, if_false] at h
      cases hg : get s with
      | none => simp [hg] at h; exact ih _ _ h
      | some deploy =>
        cases hr : deploymentReady deploy with
        | true => simp [hg, hr] at h
        | false => simp [hg, hr] at h; exact ih _ _ h

theorem waitForCRDs_error_ctx (ctx : Ctx) (get : Nat → String → Option JVal) :
    ∀ names s f e, (waitForCRDs ctx get names s f).2 = some (.error e) → e = ctx.err := by
  intro names
  induction names with
  | nil => intro s f e h; simp [waitForCRDs] at h
  | cons n rest ih =>
    intro s f e h
    rw [waitForCRDs] at h
    cases hr : waitForCRDsOne ctx (fun s => get s n) s f with
    | mk tr r2 =>
      rw [hr] at h
      match r2, h with
      | some (.ok s1), h => exact ih _ _ _ h
      | some (.error e1), h =>
        simp at h
        rw [← h]
        exact waitForCRDsOne_error_ctx ctx (fun s => get s n) f s e1 (by rw [hr])
      | none, h => simp at h

/-- C7: every polling loop — the CRD-established wait, the
deployment-readiness wait, and the bootstrap status watcher — checks
the context at the start of each iteration; when the context is done it
returns the context's own error verbatim, and for the two readiness
waits (whose loops over any schedule of API replies have no other error
exit, the full named-CRD loop included) every error they ever return is
exactly the context's error, never a loop-specific one. -/
theorem pollingLoops_return_ctx_error (ctx : Ctx) (getC getD getW : Nat → Option JVal)
    (getN : Nat → String → Option JVal) (names : List String) (step fuel : Nat)
    (hdone : ctx.isDone step = true) :
    waitForCRDsOne ctx getC step (fuel + 1) = ([], some (.error ctx.err)) ∧
    waitForDeployment ctx getD step (fuel + 1) = ([], some (.error ctx.err)) ∧
    watchBootstrapLoop ctx getW step (fuel + 1) = ([], some (.error ctx.err)) ∧
    (∀ e s f, (waitForCRDsOne ctx getC s f).2 = some (.error e) → e = ctx.err) ∧
    (∀ e s f, (waitForDeployment ctx getD s f).2 = some (.error e) → e = ctx.err) ∧
    (∀ e s f, (waitForCRDs ctx getN names s f).2 = some (.error e) → e = ctx.err) := by
  refine ⟨?_, ?_, ?_, ?_, ?_, ?_⟩
  · rw [waitForCRDsOne]; simp [hdone]
  · rw [waitForDeployment]; simp [hdone]
  · rw [watchBootstrapLoop]; simp [hdone]
  · exact fun e s f h => waitForCRDsOne_error_ctx ctx getC f s e h
  · exact fun e s f h => waitForDeployment_error_ctx ctx getD f s e h
  · exact fun e s f h => waitForCRDs_error_ctx ctx getN names s f e h

/-- A context cancelled from the very first step. -/
def ctxCancelledW : Ctx := ⟨some 0, "context canceled"⟩

theorem pollingLoops_return_ctx_error_witness :
    waitForCRDsOne ctxCancelledW (fun _ => none) 0 1 =
      ([], some (.error "context canceled")) ∧
    waitForDeployment ctxCancelledW (fun _ => none) 0 1 =
      ([], some (.error "context canceled")) ∧
    watchBootstrapLoop ctxCancelledW (fun _ => none) 0 1 =
      ([], some (.error "context canceled")) :=
  let h := pollingLoops_return_ctx_error ctxCancelledW (fun _ => none) (fun _ => none)
    (fun _ => none) (fun _ _ => none) ["machinerequests.butler.butlerlabs.dev"] 0 0 (by rfl)
  ⟨h.1, h.2.1, h.2.2.1⟩

/-- A context that is never cancelled. -/
def ctxNeverW : Ctx := ⟨none, "context canceled"⟩

/-- A CRD whose Established condition is still False. -/
def pendingCRDW : JVal :=
  .obj [("metadata", .obj [("name", .str "machinerequests.butler.butlerlabs.dev")]),
        ("status", .obj [("conditions", .list [
          .obj [("type", .str "Established"), ("status", .str "False")]])])]

/-- A deployment with one desired and zero ready replicas. -/
def notReadyDeployW : JVal :=
  .obj [("spec", .obj [("replicas", .int 1)]),
        ("status", .obj [("readyReplicas", .int 0)])]

/-- C2 (the code, evaluated): the readiness polling loops of
`WaitForCRDs` and `WaitForDeployment` never pause — over every context
and every schedule of API replies their traces contain no sleep/backoff
event at all, and at the concrete failing input (a CRD that stays
unestablished, a deployment that stays unready) three successive API
reads are issued back-to-back with no throttling wait between them.
This refutes the claim that every iteration pauses before the next
check. -/
theorem readiness_polls_do_not_pause :
    (∀ ctx get s f, PollEvent.sleepE ∉ (waitForCRDsOne ctx get s f).1) ∧
    (∀ ctx get s f, PollEvent.sleepE ∉ (waitForDeployment ctx get s f).1) ∧
    waitForCRDsOne ctxNeverW (fun _ => some pendingCRDW) 0 3 =
      ([.apiGetE, .apiGetE, .apiGetE], none) ∧
    waitForDeployment ctxNeverW (fun _ => some notReadyDeployW) 0 3 =
      ([.apiGetE, .apiGetE, .apiGetE], none) := by
  refine ⟨?_, ?_, by rfl, by rfl⟩
  · intro ctx get s f
    induction f generalizing s with
    | zero => simp [waitForCRDsOne]
    | succ n ih =>
      rw [waitForCRDsOne]
      cases hd : ctx.isDone s with
      | true => simp
      | false =>
        cases hg : get s with
        | none => simp [ih]
        | some crd =>
          cases hest : crdEstablished crd with
          | true => simp [hest]
          | false => simp [hest, ih]
  · intro ctx get s f
    induction f generalizing s with
    | zero => simp [waitForDeployment]
    | succ n ih =>
      rw [waitForDeployment]
      cases hd : ctx.isDone s with
      | true => simp
      | false =>
        cases hg : get s with
        | none => simp [ih]
        | some deploy =>
          cases hr : deploymentReady deploy with
          | true => simp [hr]
          | false => simp [hr, ih]

/-- Whether an effect is one of the dry-run-forbidden operations: the
substrate (KIND) creation or deletion, image building, any client or
manifest deployment step, intent-object submission, watching, or
credential persistence — everything except producing output. -/
def isMutationEffect : Effect → Bool
  | .printLine _ => false
  | .printf _ _ => false
  | .printYaml _ => false
  | _ => true

/-- A dry-run output line announcing one control-plane machine request. -/
def isCpRequest : Effect → Bool
  | .printf f _ => decide (f = cpReqFmt)
  | _ => false

/-- A dry-run output line announcing one worker machine request. -/
def isWorkerRequest : Effect → Bool
  | .printf f _ => decide (f = workerReqFmt)
  | _ => false

theorem countP_map_eq_length {α : Type} (p : Effect → Bool) (f : α → Effect)
    (l : List α) (h : ∀ a, p (f a) = true) : (l.map f).countP p = l.length := by
  induction l with
  | nil => rfl
  | cons a rest ih => simp [List.countP_cons, h, ih]

theorem countP_map_eq_zero {α : Type} (p : Effect → Bool) (f : α → Effect)
    (l : List α) (h : ∀ a, p (f a) = false) : (l.map f).countP p = 0 := by
  induction l with
  | nil => rfl
  | cons a rest ih => simp [List.countP_cons, h, ih]

theorem countP_comp_eq_length {α : Type} (p : Effect → Bool) (f : α → Effect)
    (l : List α) (h : ∀ a, p (f a) = true) : l.countP (p ∘ f) = l.length := by
  induction l with
  | nil => rfl
  | cons a rest ih => simp [List.countP_cons, Function.comp, h, ih]

theorem countP_comp_eq_zero {α : Type} (p : Effect → Bool) (f : α → Effect)
    (l : List α) (h : ∀ a, p (f a) = false) : l.countP (p ∘ f) = 0 := by
  induction l with
  | nil => rfl
  | cons a rest ih => simp [List.countP_cons, Function.comp, h, ih]

theorem counts_topologySection (cfg : Config) :
    (dryRunTopologySection cfg).countP isCpRequest = 0 ∧
    (dryRunTopologySection cfg).countP isWorkerRequest = 0 ∧
    (dryRunTopologySection cfg).countP isMutationEffect = 0 := by
  by_cases h : cfg.IsSingleNode = true <;>
    simp [dryRunTopologySection, h, isCpRequest, isWorkerRequest, isMutationEffect,
      cpReqFmt, workerReqFmt]

theorem counts_intentSection (pc : JVal) (cfg : Config) :
    (dryRunIntentSection pc cfg).countP isCpRequest = 0 ∧
    (dryRunIntentSection pc cfg).countP isWorkerRequest = 0 ∧
    (dryRunIntentSection pc cfg).countP isMutationEffect = 0 := by
  simp [dryRunIntentSection, isCpRequest, isWorkerRequest, isMutationEffect]

theorem counts_machineRequestSection (cfg : Config) :
    (dryRunMachineRequestSection cfg).countP isCpRequest =
      cfg.Cluster.ControlPlane.Replicas.toNat ∧
    (dryRunMachineRequestSection cfg).countP isWorkerRequest =
      (if cfg.IsSingleNode then 0 else cfg.Cluster.Workers.Replicas.toNat) ∧
    (dryRunMachineRequestSection cfg).countP isMutationEffect = 0 := by
  by_cases h : cfg.IsSingleNode = true <;>
    simp [dryRunMachineRequestSection, h, List.countP_append, List.countP_cons,
      countP_map_eq_length, countP_map_eq_zero, countP_comp_eq_length,
      countP_comp_eq_zero, isCpRequest, isWorkerRequest,
      isMutationEffect, cpReqFmt, workerReqFmt]

theorem counts_caSection (caCerts : List String) :
    (dryRunCASection caCerts).countP isCpRequest = 0 ∧
    (dryRunCASection caCerts).countP isWorkerRequest = 0 ∧
    (dryRunCASection caCerts).countP isMutationEffect = 0 := by
  by_cases h : caCerts.length > 0 <;>
    simp [dryRunCASection, h, List.countP_cons, countP_map_eq_zero,
      countP_comp_eq_zero, isCpRequest, isWorkerRequest, isMutationEffect,
      cpReqFmt, workerReqFmt]

theorem counts_hostAliasSection (cfg : Config) :
    (dryRunHostAliasSection cfg).countP isCpRequest = 0 ∧
    (dryRunHostAliasSection cfg).countP isWorkerRequest = 0 ∧
    (dryRunHostAliasSection cfg).countP isMutationEffect = 0 := by
  by_cases h : (getHostAliases cfg).length > 0 <;>
    simp [dryRunHostAliasSection, h, List.countP_cons, countP_map_eq_zero,
      countP_comp_eq_zero, isCpRequest, isWorkerRequest, isMutationEffect,
      cpReqFmt, workerReqFmt]

theorem counts_consoleSection (cfg : Config) :
    (dryRunConsoleSection cfg).countP isCpRequest = 0 ∧
    (dryRunConsoleSection cfg).countP isWorkerRequest = 0 ∧
    (dryRunConsoleSection cfg).countP isMutationEffect = 0 := by
  by_cases h1 : cfg.Addons.Console.Enabled = true <;>
    by_cases h2 : cfg.Addons.Console.Ingress.Enabled = true <;>
      by_cases h3 : cfg.Addons.Console.Ingress.ClassName = "" <;>
        simp [dryRunConsoleSection, h1, h2, h3, List.countP_append, List.countP_cons,
          isCpRequest, isWorkerRequest, isMutationEffect, cpReqFmt, workerReqFmt]

/-- C9: in dry-run mode, for every configuration whose matching
provider variant is present (so the intent builder does not hit its
nil-pointer panic), `Run` returns the completed dry-run output with no
error, before performing any substrate creation, manifest deployment,
or intent-object submission (the trace holds no effect beyond
printing), and the output lists exactly `cluster.controlPlane.replicas`
control-plane machine requests, plus exactly `cluster.workers.replicas`
worker machine requests when the topology is not single-node and none
when it is. -/
theorem dryRun_no_effects_and_counts (opts : Options) (cfg : Config)
    (caCerts : List String) (out : PhaseOutcomes) (pc : JVal)
    (hdry : opts.DryRun = true)
    (hpc : buildProviderConfigUnstructured cfg = some pc)
    (hcp : 0 ≤ cfg.Cluster.ControlPlane.Replicas)
    (hw : 0 ≤ cfg.Cluster.Workers.Replicas) :
    (Run opts cfg caCerts out).2 = some (.ok ()) ∧
    (Run opts cfg caCerts out).1.countP isMutationEffect = 0 ∧
    ((Run opts cfg caCerts out).1.countP isCpRequest : Int) =
      cfg.Cluster.ControlPlane.Replicas ∧
    ((Run opts cfg caCerts out).1.countP isWorkerRequest : Int) =
      (if cfg.IsSingleNode then 0 else cfg.Cluster.Workers.Replicas) := by
  have hrun : Run opts cfg caCerts out =
      (dryRunTopologySection cfg ++ dryRunIntentSection pc cfg ++
       dryRunMachineRequestSection cfg ++ dryRunCASection caCerts ++
       dryRunHostAliasSection cfg ++ dryRunConsoleSection cfg, some (.ok ())) := by
    simp [Run, dryRun, hdry, hpc]
  rw [hrun]
  have ht := counts_topologySection cfg
  have hi := counts_intentSection pc cfg
  have hm := counts_machineRequestSection cfg
  have hca := counts_caSection caCerts
  have hha := counts_hostAliasSection cfg
  have hco := counts_consoleSection cfg
  refine ⟨rfl, ?_, ?_, ?_⟩
  · simp [List.countP_append, ht.2.2, hi.2.2, hm.2.2, hca.2.2, hha.2.2, hco.2.2]
  · simp [List.countP_append, ht.1, hi.1, hm.1, hca.1, hha.1, hco.1]
    exact hcp
  · simp only [List.countP_append, ht.2.1, hi.2.1, hm.2.1, hca.2.1, hha.2.1, hco.2.1]
    by_cases h : cfg.IsSingleNode = true
    · simp [h]
    · simp [h, hw]

/-- Dry-run options for the C9 witness. -/
def optsW : Options := ⟨true, false, 0, false, ""⟩

/-- All-ok phase outcomes for the C9 witness (irrelevant in dry-run
mode). -/
def outW : PhaseOutcomes :=
  ⟨.ok (), .ok (), .ok (), .ok (), .ok (), .ok (), .ok (), .ok (), .ok (), .ok (), .ok ()⟩

theorem dryRun_no_effects_and_counts_witness :
    (Run optsW cfgHW [] outW).2 = some (.ok ()) ∧
    (Run optsW cfgHW [] outW).1.countP isMutationEffect = 0 ∧
    ((Run optsW cfgHW [] outW).1.countP isCpRequest : Int) = 3 ∧
    ((Run optsW cfgHW [] outW).1.countP isWorkerRequest : Int) = 0 := by
  have h := dryRun_no_effects_and_counts optsW cfgHW [] outW pcHW (by rfl) (by rfl)
    (by decide) (by decide)
  exact ⟨h.1, h.2.1, h.2.2.1, by rw [h.2.2.2]; rfl⟩
